import Mathlib

/-!
Verification development for the ad-generation orchestration pipeline
(`src/services/generationPipeline.ts`) and the provider-adapter helpers it
relies on (`src/services/geminiService.ts`), over the data model of
`src/types.ts`.

Modelling conventions, used throughout:
* JavaScript `string | null | undefined` values are `Option String`; the
  orchestrator branches on JS *truthiness* of URLs, which is modelled by
  `truthyOptStr` (the empty string is falsy).
* Asynchronous adapter calls are modelled by their awaited outcome: an
  `Except JsErrVal v` oracle (`Except.error` is a thrown error / rejected
  promise).  Per-scene adapters are indexed by the position of the scene in
  the iteration order of the loop that calls them.
* The cancellation predicate `options.shouldCancel` is impure in the source
  (each call may answer differently), so it is modelled as a function of the
  number of times it has been sampled so far.
* The `onProjectInitialized` / `onProjectUpdate` callbacks are modelled by
  recording their arguments, in call order, in the returned `PipelineTrace`.
* `PipelineLogEntry` values (ids, wall-clock timestamps, console output) are
  pure observability and never read back by the orchestrator; log emission is
  therefore not modelled.  `PipelineIssue`s, which the orchestrator returns,
  are modelled exactly.
-/

/-! ## Basic data model (`src/types.ts`) -/

/-- Model of `AspectRatio` of `types.ts` (`'16:9' | '9:16'`); the type is renamed here
because the original spelling is unavailable in this development. -/
inductive AspectRatioKind
  | sixteenNine
  | nineSixteen
deriving DecidableEq, Repr

/-- Model of `TTSVoice` of `types.ts`. -/
inductive TTSVoice
  | puck
  | charon
  | kore
  | fenrir
  | zephyr
  | aoede
deriving DecidableEq, Repr

/-- Model of `ProjectMode` of `types.ts`. -/
inductive ProjectMode
  | commercial
  | musicVideo
  | trippy
  | cinematic
deriving DecidableEq, Repr

/-- Model of `DialogueLine` of `types.ts`. -/
structure DialogueLine where
  speaker : String
  text : String
deriving DecidableEq, Repr

/-- The `type` field of `ReferenceFile`. -/
inductive ReferenceFileType
  | image
  | pdf
  | text
  | link
deriving DecidableEq, Repr

/-- Model of `ReferenceFile` of `types.ts`. -/
structure ReferenceFile where
  id : String
  name : String
  type : ReferenceFileType
  content : String
  previewUrl : Option String
  mimeType : Option String
deriving DecidableEq, Repr

/-- The `useTextOverlays` setting (`'yes' | 'no' | 'auto'`). -/
inductive OverlayPreference
  | yes
  | no
  | auto
deriving DecidableEq, Repr

/-- The `preferredVoice` setting (`TTSVoice | 'auto'`). -/
inductive VoicePreference
  | specific (voice : TTSVoice)
  | auto
deriving DecidableEq, Repr

/-- Model of `ProjectSettings` of `types.ts`.  The `aspectRatio` field is renamed to
`aspect` because the original spelling is unavailable in this development. -/
structure ProjectSettings where
  customScript : String
  musicTheme : String
  useTextOverlays : OverlayPreference
  textOverlayFont : Option String
  preferredVoice : VoicePreference
  aspect : AspectRatioKind
  mode : ProjectMode
deriving DecidableEq, Repr

/-- The `position` field of `OverlayConfig`. -/
inductive OverlayPosition
  | center
  | top
  | bottom
  | topLeft
  | topRight
  | bottomLeft
  | bottomRight
deriving DecidableEq, Repr

/-- The `size` field of `OverlayConfig`. -/
inductive OverlaySize
  | small
  | medium
  | large
  | xl
deriving DecidableEq, Repr

/-- Model of `OverlayConfig` of `types.ts`. -/
structure OverlayConfig where
  position : OverlayPosition
  size : OverlaySize
deriving DecidableEq, Repr

/-- Model of `CharacterDetails` of `types.ts`. -/
structure CharacterDetails where
  name : String
  description : String
  hair : String
  face : String
  wardrobe : String
deriving DecidableEq, Repr

/-- Model of `EnvironmentDetails` of `types.ts`. -/
structure EnvironmentDetails where
  location : String
  look : String
  lighting : String
  background_motion : String
deriving DecidableEq, Repr

/-- Model of `CameraDetails` of `types.ts`. -/
structure CameraDetails where
  framing : String
  movement : String
  notes : String
deriving DecidableEq, Repr

/-- Model of `ActionBlocking` of `types.ts`. -/
structure ActionBlocking where
  time_window : String
  notes : String
deriving DecidableEq, Repr

/-- The per-scene `status` state machine of `types.ts`. -/
inductive SceneStatus
  | pending
  | generating
  | complete
  | failed
deriving DecidableEq, Repr

/-- Model of `Scene` of `types.ts`.  `duration` is typed `4 | 6` in the source and
modelled as a `Nat`. -/
structure Scene where
  id : String
  order : Int
  duration : Nat
  character : CharacterDetails
  environment : EnvironmentDetails
  camera : CameraDetails
  action_blocking : List ActionBlocking
  visual_summary_prompt : String
  textOverlay : String
  overlayConfig : Option OverlayConfig
  status : SceneStatus
  storyboardUrl : Option String
  videoUrl : Option String
deriving DecidableEq, Repr

/-- Model of `AdProject['currentPhase']` of `types.ts`. -/
inductive PipelinePhase
  | planning
  | storyboarding
  | video_production
  | voiceover
  | scoring
  | mixing
  | ready
deriving DecidableEq, Repr

/-- Model of `AdProject` of `types.ts`. -/
structure AdProject where
  title : String
  concept : String
  musicMood : String
  fullScript : String
  script : Option (List DialogueLine)
  characterProfile : Option String
  visualStyleProfile : Option String
  scenes : List Scene
  voiceoverUrl : Option String
  musicUrl : Option String
  visualAnchor : Option String
  ffmpegCommand : Option String
  isGenerating : Bool
  currentPhase : PipelinePhase
  mode : Option ProjectMode
deriving DecidableEq, Repr

/-! ## JavaScript value helpers

The orchestrator tests URL values with JS truthiness (`!url`, `url || undefined`,
`a || b`); these helpers model that for `Option String` / `String` values. -/

/-- JS truthiness of a string: the empty string is falsy. -/
def truthyStr (s : String) : Bool := !s.isEmpty

/-- JS truthiness of a `string | null | undefined` value. -/
def truthyOptStr : Option String → Bool
  | some s => truthyStr s
  | none => false

/-- JS `url || undefined` on a `string | null` value. -/
def orUndefined (url : Option String) : Option String :=
  if truthyOptStr url then url else none

/-- JS `a || b` on strings. -/
def jsOr (a b : String) : String :=
  if truthyStr a then a else b

/-! ## Error serialization (`generationPipeline.ts` lines 94–126)

`JsErrVal` models an arbitrary JavaScript value that can occur in an `error`
position (a thrown value, or the `error` field of a provider diagnostic).
Constructors group JS values by how `isSerializedPipelineError` /
`toSerializedError` treat them:
* `jsError` — an `Error` instance (has string `name`/`message`, optional
  `stack`, optional `cause`);
* `strVal` — a string;
* `objWithMessage` — a non-`Error` object whose `message` property is a
  string (passes `isSerializedPipelineError`); `json` is its
  `JSON.stringify` rendering (`none` if stringification throws);
* `otherObj` — any other object;
* `otherPrim` — any non-string, non-object primitive (including
  `null`/`undefined`), with its truthiness and `JSON.stringify` rendering.
-/

/-- Model of `SerializedPipelineError` of `generationPipeline.ts`. -/
structure SerializedPipelineError where
  name : Option String
  message : String
  stack : Option String
  cause : Option String
deriving DecidableEq, Repr

/-- The `cause` property of an `Error` instance. -/
inductive RawCause
  | noCause
  | causeError (message : String)
  | causeStr (s : String)
  | causeOther
deriving DecidableEq, Repr

/-- An arbitrary JS value in an error position (see section comment). -/
inductive JsErrVal
  | jsError (name message : String) (stack : Option String) (cause : RawCause)
  | strVal (s : String)
  | objWithMessage (e : SerializedPipelineError) (json : Option String)
  | otherObj (json : Option String)
  | otherPrim (truthy : Bool) (json : Option String)
deriving DecidableEq, Repr

/-- JS truthiness of an error-position value. -/
def errTruthy : JsErrVal → Bool
  | .jsError .. => true
  | .strVal s => truthyStr s
  | .objWithMessage .. => true
  | .otherObj _ => true
  | .otherPrim truthy _ => truthy

/-- Model of `isSerializedPipelineError` (lines 94–101): an object whose `message`
property is a string.  `Error` instances also pass this check. -/
def isSerializedPipelineError : JsErrVal → Bool
  | .jsError .. => true
  | .objWithMessage .. => true
  | _ => false

/-- Model of `toSerializedError` (lines 103–126).  The `JSON.stringify` fallback uses
the recorded rendering; a stringification failure yields the literal
"Unknown error" message. -/
def toSerializedError : JsErrVal → SerializedPipelineError
  | .jsError name message stack cause =>
    { name := some name
      message := message
      stack := stack
      cause :=
        match cause with
        | .causeError m => some m
        | .causeStr s => some s
        | _ => none }
  | .strVal s => { name := none, message := s, stack := none, cause := none }
  | .objWithMessage _ json =>
    { name := none, message := json.getD ("Unknown error"), stack := none, cause := none }
  | .otherObj json =>
    { name := none, message := json.getD ("Unknown error"), stack := none, cause := none }
  | .otherPrim _ json =>
    { name := none, message := json.getD ("Unknown error"), stack := none, cause := none }

/-- A value that passes `isSerializedPipelineError` is kept as-is (not
re-serialized); this is its view as a `SerializedPipelineError`.  A
non-string `cause` on an `Error` instance is not representable in the view
and is modelled as `none`. -/
def asSerializedView : JsErrVal → SerializedPipelineError
  | .jsError name message stack cause =>
    { name := some name
      message := message
      stack := stack
      cause :=
        match cause with
        | .causeStr s => some s
        | _ => none }
  | .objWithMessage e _ => e
  | v => toSerializedError v

/-! ## Diagnostic model (`generationPipeline.ts` lines 40–52, 128–165) -/

/-- Model of `PipelineLogLevel` of `generationPipeline.ts` (also geminiService's
`ProviderDiagnosticLevel`, which has the same three values). -/
inductive PipelineLogLevel
  | info
  | warn
  | error
deriving DecidableEq, Repr

/-- Stand-in for a JS `Record<string, unknown>` context object, which the
pipeline only carries through. -/
abbrev JsContext := List (String × String)

/-- The `level` field of an untrusted provider diagnostic: either some string
value or any non-string value. -/
inductive RawLevel
  | rstr (s : String)
  | rother
deriving DecidableEq, Repr

/-- Model of `toPipelineLevel` (lines 128–131): unknown levels collapse to `info`. -/
def toPipelineLevel (level : RawLevel) : PipelineLogLevel :=
  match level with
  | .rstr s =>
    if s = "error" then .error
    else if s = "warn" then .warn
    else if s = "info" then .info
    else .info
  | .rother => .info

/-- One entry of the `diagnostics` array of an untrusted provider result, as
consumed by `normalizeAssetResult` (lines 144–156). -/
structure RawDiagnostic where
  level : RawLevel
  code : Option String
  message : String
  context : Option JsContext
  error : Option JsErrVal
deriving DecidableEq, Repr

/-- Model of `NormalizedProviderDiagnostic` of `generationPipeline.ts`. -/
structure NormalizedProviderDiagnostic where
  level : PipelineLogLevel
  code : Option String
  message : String
  context : Option JsContext
  error : Option SerializedPipelineError
deriving DecidableEq, Repr

/-- Model of `NormalizedAssetResult` of `generationPipeline.ts`. -/
structure NormalizedAssetResult where
  url : Option String
  fallbackUsed : Bool
  diagnostics : List NormalizedProviderDiagnostic
deriving DecidableEq, Repr

/-- An arbitrary JS value returned by an adapter, as dispatched on by
`normalizeAssetResult` (lines 133–159):
* `str` — a string (`typeof value === "string"`);
* `nonObject` — `null`, `undefined`, or any non-string primitive
  (`!value || typeof value !== "object"`);
* `obj` — an object, with the three fields the source reads from it:
  `url` is `some s` exactly when the `url` property is a string
  (`typeof maybeResult.url === "string"`), `fallbackUsed` is the JS
  `Boolean(...)` coercion of the `fallbackUsed` property, and `diagnostics`
  is `some l` exactly when the `diagnostics` property is an array
  (`Array.isArray`). -/
inductive JsValue
  | str (s : String)
  | nonObject
  | obj (url : Option String) (fallbackUsed : Bool) (diagnostics : Option (List RawDiagnostic))
deriving DecidableEq, Repr

/-- Normalization of one raw diagnostic entry (the `map` body of lines
145–155): `entry.error ? (isSerializedPipelineError(entry.error) ?
entry.error : toSerializedError(entry.error)) : undefined`. -/
def normalizeRawDiagnostic (entry : RawDiagnostic) : NormalizedProviderDiagnostic :=
  { level := toPipelineLevel entry.level
    code := entry.code
    message := entry.message
    context := entry.context
    error :=
      match entry.error with
      | some e =>
        if errTruthy e then
          some (if isSerializedPipelineError e then asSerializedView e else toSerializedError e)
        else none
      | none => none }

/-- Model of `normalizeAssetResult` (lines 133–159). -/
def normalizeAssetResult : JsValue → NormalizedAssetResult
  | .str s => { url := some s, fallbackUsed := false, diagnostics := [] }
  | .nonObject => { url := none, fallbackUsed := false, diagnostics := [] }
  | .obj url fallbackUsed diagnostics =>
    { url := url
      fallbackUsed := fallbackUsed
      diagnostics := (diagnostics.getD []).map normalizeRawDiagnostic }

/-- Model of `selectPrimaryDiagnostic` (lines 161–165): first `error`-level entry,
else first `warn`-level entry. -/
def selectPrimaryDiagnostic (diagnostics : List NormalizedProviderDiagnostic) :
    Option NormalizedProviderDiagnostic :=
  (diagnostics.find? fun entry => decide (entry.level = PipelineLogLevel.error)).orElse
    fun _ => diagnostics.find? fun entry => decide (entry.level = PipelineLogLevel.warn)

/-! ## geminiService adapter model (`src/services/geminiService.ts`) -/

/-- Model of `ProviderName` of `geminiService.ts`. -/
inductive ProviderName
  | gemini
  | veo
  | lyria
deriving DecidableEq, Repr

/-- Model of `ProviderOperation` of `geminiService.ts`. -/
inductive ProviderOperation
  | storyboard
  | video
  | voiceoverOp
  | music
deriving DecidableEq, Repr

/-- Model of `ProviderDiagnostic` of `geminiService.ts` (the typed, adapter-side
diagnostic; `code` is non-optional here). -/
structure ProviderDiagnostic where
  level : PipelineLogLevel
  code : String
  message : String
  context : Option JsContext
  error : Option JsErrVal
deriving DecidableEq, Repr

/-- The `diagnostic` helper of `geminiService.ts`. -/
def diagnostic (level : PipelineLogLevel) (code message : String)
    (context : Option JsContext) (error : Option JsErrVal) : ProviderDiagnostic :=
  { level := level, code := code, message := message, context := context, error := error }

/-- Model of `GeneratedAssetResult` of `geminiService.ts` (as always produced by
`buildGeneratedAssetResult`, so `fallbackUsed`/`diagnostics` are present). -/
structure GeneratedAssetResult where
  provider : ProviderName
  operation : ProviderOperation
  url : Option String
  fallbackUsed : Bool
  diagnostics : List ProviderDiagnostic
deriving DecidableEq, Repr

/-- Model of `buildGeneratedAssetResult` of `geminiService.ts`.  The source defaults
`fallbackUsed` to `false`; call sites here always pass it explicitly. -/
def buildGeneratedAssetResult (provider : ProviderName) (operation : ProviderOperation)
    (url : Option String) (diagnostics : List ProviderDiagnostic)
    (fallbackUsed : Bool) : GeneratedAssetResult :=
  { provider := provider
    operation := operation
    url := url
    fallbackUsed := fallbackUsed
    diagnostics := diagnostics }

/-- The result of `parseDataUrl`. -/
structure DataUrlParts where
  mimeType : String
  base64 : String
deriving DecidableEq, Repr

/-- A JS line terminator, which `.` in a JS regex does not match. -/
def isJsLineTerminator (c : Char) : Bool :=
  c = '\n' || c = '\r' || c = Char.ofNat 0x2028 || c = Char.ofNat 0x2029

/-- The characters of the literal `;base64,` part of the data-URL regex. -/
def base64MarkerChars : List Char := (";base64,").toList

/-- Model of `parseDataUrl` of `geminiService.ts`: matches
`/^data:(.+);base64,(.+)$/` (greedy first group, `.` excludes line
terminators) and returns the mime type and base64 payload, or `null`. -/
def parseDataUrl (dataUrl : String) : Option DataUrlParts :=
  let cs := dataUrl.toList
  if cs.take 5 = ("data:").toList then
    let rest := cs.drop 5
    if rest.any isJsLineTerminator then none
    else
      let valid := (List.range rest.length).filter fun i =>
        decide (1 ≤ i) && base64MarkerChars.isPrefixOf (rest.drop i) &&
          decide (i + 8 < rest.length)
      match valid.getLast? with
      | some i => some { mimeType := String.mk (rest.take i), base64 := String.mk (rest.drop (i + 8)) }
      | none => none
  else none

/-- JS `String.prototype.toLowerCase` restricted to the simple per-character
case mapping (all keywords involved are ASCII). -/
def jsToLowerCase (s : String) : String :=
  String.mk (s.toList.map Char.toLower)

/-- JS `String.prototype.includes`: substring containment. -/
def strIncludes (s pattern : String) : Bool :=
  (List.range (s.toList.length + 1)).any fun i => pattern.toList.isPrefixOf (s.toList.drop i)

/-- The `MOOD_TRACKS` record of `geminiService.ts` (lines 751–757), as a
lookup from key to track URL; a missing key (JS `undefined`) is modelled as
the empty string, which no call site produces. -/
def MOOD_TRACKS (key : String) : String :=
  if key = "upbeat" then
    "https://cdn.pixabay.com/download/audio/2024/05/20/audio_34b92569de.mp3?filename=uplifting-background-music-for-videos-corporates-presentations-205562.mp3"
  else if key = "cinematic" then
    "https://cdn.pixabay.com/download/audio/2022/10/25/audio_5119a9705a.mp3?filename=cinematic-atmosphere-score-2-21142.mp3"
  else if key = "emotional" then
    "https://cdn.pixabay.com/download/audio/2022/05/05/audio_13b5646142.mp3?filename=emotional-piano-110266.mp3"
  else if key = "corporate" then
    "https://cdn.pixabay.com/download/audio/2024/02/07/audio_4f0b2a7585.mp3?filename=corporate-music-189688.mp3"
  else if key = "jazz" then
    "https://cdn.pixabay.com/download/audio/2022/03/10/audio_5245842187.mp3?filename=smooth-jazz-110757.mp3"
  else ("")

/-- Model of `getFallbackMusic` of `geminiService.ts` (lines 758–765). -/
def getFallbackMusic (mood : String) : String :=
  let lowerMood := jsToLowerCase mood
  if strIncludes lowerMood ("happy") || strIncludes lowerMood ("upbeat") then
    MOOD_TRACKS ("upbeat")
  else if strIncludes lowerMood ("business") || strIncludes lowerMood ("tech") then
    MOOD_TRACKS ("corporate")
  else if strIncludes lowerMood ("sad") || strIncludes lowerMood ("emotional") then
    MOOD_TRACKS ("emotional")
  else if strIncludes lowerMood ("jazz") then
    MOOD_TRACKS ("jazz")
  else
    MOOD_TRACKS ("cinematic")

/-- Modelled from the claim's words (C8), independently of the source of
`getFallbackMusic`: case-insensitive keyword substring matching with fixed
priority — a mood containing "happy" or "upbeat" yields the upbeat track;
else one containing "business" or "tech" yields the corporate track; else
one containing "sad" or "emotional" yields the emotional track; else one
containing "jazz" yields the jazz track; any other mood yields the cinematic
default; the first matching keyword group wins. -/
def getFallbackMusicSpec (mood : String) : String :=
  let m := jsToLowerCase mood
  if strIncludes m ("happy") || strIncludes m ("upbeat") then MOOD_TRACKS ("upbeat")
  else if strIncludes m ("business") || strIncludes m ("tech") then MOOD_TRACKS ("corporate")
  else if strIncludes m ("sad") || strIncludes m ("emotional") then MOOD_TRACKS ("emotional")
  else if strIncludes m ("jazz") then MOOD_TRACKS ("jazz")
  else MOOD_TRACKS ("cinematic")

/-! ### `generateVideoClip` (`geminiService.ts` lines 561–635)

`internalGenerateVideo` performs the network call and polling; it never
throws (it catches everything and returns `{url, diagnostics}`).  It is
modelled as two oracles indexed by the prompt passed to it: one for the
image-conditioned call, and one for the text-only call. -/

/-- The `{url, diagnostics}` outcome of one `internalGenerateVideo` call. -/
structure VideoAttemptOutcome where
  url : Option String
  diagnostics : List ProviderDiagnostic
deriving DecidableEq, Repr

/-- Environment for `generateVideoClip`: whether `hasApiKey()` holds, and
the outcomes of the (at most two) `internalGenerateVideo` calls. -/
structure VeoEnv where
  hasApiKey : Bool
  imageToVideo : String → VideoAttemptOutcome
  textToVideo : String → VideoAttemptOutcome

/-- Model of `actionNotes` (line 581): `scene.action_blocking.map(a => a.notes).join('. ')`
(the field is always an array in the model, so the `Array.isArray` guard
always passes). -/
def actionNotesOf (scene : Scene) : String :=
  String.intercalate (". ") (scene.action_blocking.map ActionBlocking.notes)

/-- The `veoPrompt` template literal (lines 584–589). -/
def veoPromptOf (scene : Scene) : String :=
  "\n      Cinematic video.\n      " ++
    jsOr (jsOr (actionNotesOf scene) scene.visual_summary_prompt)
      ("Subject performs action in a cinematic commercial style.") ++
    "\n      Camera: " ++ jsOr scene.camera.movement ("smooth tracking") ++
    ".\n      Lighting: " ++ jsOr scene.environment.lighting ("high-contrast cinematic") ++
    ".\n    "

/-- The prompt of the text-to-video attempt (line 628):
`${scene.visual_summary_prompt || veoPrompt} (Cinematic, Photorealistic)`. -/
def textToVideoPromptOf (scene : Scene) : String :=
  jsOr scene.visual_summary_prompt (veoPromptOf scene) ++ " (Cinematic, Photorealistic)"

/-- Model of `generateVideoClip` (lines 561–635).  The `aspect` argument only feeds
the network call, which the attempt oracles absorb. -/
def generateVideoClip (env : VeoEnv) (scene : Scene) (_aspect : AspectRatioKind)
    (sourceImageDataUrl : Option String) : GeneratedAssetResult :=
  if env.hasApiKey = false then
    buildGeneratedAssetResult .veo .video none
      [diagnostic .error ("VEO_MISSING_API_KEY")
        ("Missing Gemini API key. Set GEMINI_API_KEY before generating video.")
        (some [(("sceneId"), scene.id)]) none] false
  else
    if truthyOptStr sourceImageDataUrl then
      match parseDataUrl (sourceImageDataUrl.getD ("")) with
      | some _parsed =>
        let attempt := env.imageToVideo (veoPromptOf scene)
        if truthyOptStr attempt.url then
          buildGeneratedAssetResult .veo .video attempt.url attempt.diagnostics false
        else
          let diags := attempt.diagnostics ++
            [diagnostic .warn ("VEO_IMAGE_TO_VIDEO_FAILED")
              ("Image-to-video attempt failed. Falling back to text-to-video.")
              (some [(("sceneId"), scene.id)]) none]
          let textAttempt := env.textToVideo (textToVideoPromptOf scene)
          buildGeneratedAssetResult .veo .video textAttempt.url
            (diags ++ textAttempt.diagnostics) true
      | none =>
        let diags :=
          [diagnostic .warn ("VEO_SOURCE_IMAGE_PARSE_FAILED")
            ("Storyboard image could not be parsed. Falling back to text-to-video.")
            (some [(("sceneId"), scene.id)]) none]
        let textAttempt := env.textToVideo (textToVideoPromptOf scene)
        buildGeneratedAssetResult .veo .video textAttempt.url
          (diags ++ textAttempt.diagnostics) true
    else
      let textAttempt := env.textToVideo (textToVideoPromptOf scene)
      buildGeneratedAssetResult .veo .video textAttempt.url textAttempt.diagnostics false

/-! ## Pipeline orchestrator (`generationPipeline.ts` lines 167–544) -/

/-- Model of `PipelineIssue` of `generationPipeline.ts`. -/
structure PipelineIssue where
  stage : PipelinePhase
  message : String
  sceneId : Option String
  recoverable : Bool
  error : Option SerializedPipelineError
deriving DecidableEq, Repr

/-- A scene as it appears in the plan adapter's output: the `Scene` fields
minus the runtime ones (`status`, `storyboardUrl`, `videoUrl`), which plan
scenes do not carry. -/
structure PlanScene where
  id : String
  order : Int
  duration : Nat
  character : CharacterDetails
  environment : EnvironmentDetails
  camera : CameraDetails
  action_blocking : List ActionBlocking
  visual_summary_prompt : String
  textOverlay : String
  overlayConfig : Option OverlayConfig
deriving DecidableEq, Repr

/-- The structured plan returned by the plan adapter, as the orchestrator
reads it (`...plan` spread, `plan.scenes || []`, `plan.fullScript`,
`plan.script`, `plan.musicMood`).  `scenes` is `none` when the property is
missing (`plan.scenes || []`). -/
structure AdPlan where
  title : String
  concept : String
  musicMood : String
  fullScript : String
  script : Option (List DialogueLine)
  characterProfile : Option String
  visualStyleProfile : Option String
  scenes : Option (List PlanScene)
deriving DecidableEq, Repr

/-- Model of `GenerationPipelineOptions` of `generationPipeline.ts`.  The three
callbacks are modelled by the returned `PipelineTrace`; `shouldCancel` is
indexed by the number of prior samples (see the header comment). -/
structure GenerationPipelineOptions where
  prompt : String
  settings : ProjectSettings
  files : List ReferenceFile
  visualAnchorDataUrl : Option String
  preferredVoice : TTSVoice
  shouldCancel : Option (Nat → Bool)

/-- Model of `GenerationPipelineDependencies` of `generationPipeline.ts`: the five
injected adapters, modelled by the awaited outcome of each call
(`Except.error` = thrown/rejected).  The two per-scene adapters are indexed
by the position of the scene in the loop's iteration order. -/
structure GenerationPipelineDependencies where
  generateAdPlan : Except JsErrVal AdPlan
  generateStoryboardImage : Nat → Except JsErrVal JsValue
  generateVideoClip : Nat → Except JsErrVal JsValue
  generateVoiceover : Except JsErrVal JsValue
  generateMusic : Except JsErrVal JsValue

/-- Model of `GenerationPipelineRunResult` of `generationPipeline.ts` (`logs`
omitted; see the header comment). -/
structure GenerationPipelineRunResult where
  plan : AdPlan
  project : AdProject
  scenes : List Scene
  voiceoverUrl : Option String
  musicUrl : Option String
  issues : List PipelineIssue
deriving DecidableEq, Repr

/-- The ways `runGenerationPipeline` rejects: `PipelineCancelledError`, the
re-thrown plan-stage error (line 247), or the defensive
"project was not initialized" error (line 521). -/
inductive PipelineErrorKind
  | cancelled
  | planFailed (error : JsErrVal)
  | notInitialized
deriving DecidableEq, Repr

/-- The observable callback history of a run: the arguments passed to
`onProjectInitialized` and `onProjectUpdate`, in call order. -/
structure PipelineTrace where
  initCalls : List AdProject
  updates : List AdProject
deriving DecidableEq, Repr

/-- The full outcome of a run: callback trace plus resolution/rejection. -/
structure PipelineRun where
  trace : PipelineTrace
  result : Except PipelineErrorKind GenerationPipelineRunResult
deriving Repr

/-- The orchestrator's mutable state: `projectState`, the callback
histories, the accumulated `issues`, and the number of `shouldCancel`
samples taken so far. -/
structure PipeSt where
  projectState : Option AdProject
  initCalls : List AdProject
  updates : List AdProject
  issues : List PipelineIssue
  cancelSamples : Nat
deriving DecidableEq, Repr

/-- Model of `updateProject` (lines 227–230): set `projectState` and broadcast. -/
def updateProject (st : PipeSt) (nextProject : AdProject) : PipeSt :=
  { st with projectState := some nextProject, updates := st.updates ++ [nextProject] }

/-- Model of `addIssue` (lines 203–212); the accompanying log entry is not modelled. -/
def addIssue (st : PipeSt) (issue : PipelineIssue) : PipeSt :=
  { st with issues := st.issues ++ [issue] }

/-- Model of `checkCancelled` (lines 232–237): sample `options.shouldCancel?.()`;
on `true`, throw `PipelineCancelledError` (the `Except.error` branch). -/
def checkCancelled (options : GenerationPipelineOptions) (st : PipeSt) : Except PipeSt PipeSt :=
  match options.shouldCancel with
  | none => Except.ok st
  | some p =>
    let st' := { st with cancelSamples := st.cancelSamples + 1 }
    if p st.cancelSamples then Except.error st' else Except.ok st'

/-- Model of the `{...scene, status: "pending"}` construction (lines 256–259): a plan scene entering
the pipeline; `storyboardUrl`/`videoUrl` are absent on plan scenes. -/
def initScene (scene : PlanScene) : Scene :=
  { id := scene.id
    order := scene.order
    duration := scene.duration
    character := scene.character
    environment := scene.environment
    camera := scene.camera
    action_blocking := scene.action_blocking
    visual_summary_prompt := scene.visual_summary_prompt
    textOverlay := scene.textOverlay
    overlayConfig := scene.overlayConfig
    status := .pending
    storyboardUrl := none
    videoUrl := none }

/-- The `initialProject` (lines 252–261): `{...plan, isGenerating: true,
currentPhase: 'storyboarding', scenes: (plan.scenes || []).map(...),
mode: options.settings.mode}`. -/
def initialProjectOf (options : GenerationPipelineOptions) (plan : AdPlan) : AdProject :=
  { title := plan.title
    concept := plan.concept
    musicMood := plan.musicMood
    fullScript := plan.fullScript
    script := plan.script
    characterProfile := plan.characterProfile
    visualStyleProfile := plan.visualStyleProfile
    scenes := (plan.scenes.getD []).map initScene
    voiceoverUrl := none
    musicUrl := none
    visualAnchor := none
    ffmpegCommand := none
    isGenerating := true
    currentPhase := .storyboarding
    mode := some options.settings.mode }

/-- Package the final state and result of a run. -/
def mkRun (st : PipeSt) (result : Except PipelineErrorKind GenerationPipelineRunResult) :
    PipelineRun :=
  { trace := { initCalls := st.initCalls, updates := st.updates }, result := result }

/-- One storyboarding iteration (lines 272–337), from the adapter call to
the broadcast: call the storyboard adapter, record an issue when no usable
image came back (or the adapter threw), attach `storyboardUrl || undefined`,
and broadcast the scene replacement.  Returns the scene pushed onto
`storyboardedScenes` together with the updated state. -/
def storyboardStep (deps : GenerationPipelineDependencies) (index : Nat)
    (scene : Scene) (st0 : PipeSt) : Scene × PipeSt :=
  match deps.generateStoryboardImage index with
  | .ok value =>
    let storyboardResult := normalizeAssetResult value
    let storyboardUrl := storyboardResult.url
    let failureDiagnostic := selectPrimaryDiagnostic storyboardResult.diagnostics
    let nextScene := { scene with storyboardUrl := orUndefined storyboardUrl }
    let st1 :=
      if truthyOptStr storyboardUrl = false then
        addIssue st0
          { stage := .storyboarding
            sceneId := some scene.id
            message :=
              match failureDiagnostic with
              | some d => "Storyboard generation returned no image. " ++ d.message
              | none => "Storyboard generation returned no image. Continuing with fallback flow."
            recoverable := true
            error := failureDiagnostic.bind fun d => d.error }
      else st0
    let st2 :=
      match st1.projectState with
      | some proj =>
        updateProject st1
          { proj with scenes := proj.scenes.map fun s => if s.id = scene.id then nextScene else s }
      | none => st1
    (nextScene, st2)
  | .error e =>
    let serialized := toSerializedError e
    let st1 := addIssue st0
      { stage := .storyboarding
        sceneId := some scene.id
        message := "Storyboard generation failed. Continuing without storyboard."
        recoverable := true
        error := some serialized }
    let nextScene := { scene with storyboardUrl := none }
    let st2 :=
      match st1.projectState with
      | some proj =>
        updateProject st1
          { proj with scenes := proj.scenes.map fun s => if s.id = scene.id then nextScene else s }
      | none => st1
    (nextScene, st2)

/-- The storyboarding loop (lines 269–338): for each scene in order, check
cancellation, then run the storyboarding iteration. -/
def storyboardLoop (options : GenerationPipelineOptions)
    (deps : GenerationPipelineDependencies) :
    List Scene → Nat → List Scene → PipeSt → Except PipeSt (List Scene × PipeSt)
  | [], _, storyboardedScenes, st => Except.ok (storyboardedScenes, st)
  | scene :: rest, index, storyboardedScenes, st =>
    match checkCancelled options st with
    | .error stHalt => Except.error stHalt
    | .ok st0 =>
      let step := storyboardStep deps index scene st0
      storyboardLoop options deps rest (index + 1) (storyboardedScenes ++ [step.1]) step.2

/-- One video-production iteration (lines 353–430), from the `generating`
broadcast to the final broadcast: broadcast the scene as `generating`, call
the video adapter, set `videoUrl || undefined` and `complete`/`failed`,
record an issue when no output came back (or the adapter threw), and
broadcast the result. -/
def videoStep (deps : GenerationPipelineDependencies) (index : Nat)
    (scene : Scene) (st0 : PipeSt) : Scene × PipeSt :=
  let st1 :=
    match st0.projectState with
    | some proj =>
      updateProject st0
        { proj with scenes := proj.scenes.map fun s =>
            if s.id = scene.id then { s with status := SceneStatus.generating } else s }
    | none => st0
  match deps.generateVideoClip index with
  | .ok value =>
    let videoQueryResult := normalizeAssetResult value
    let videoUrl := videoQueryResult.url
    let failureDiagnostic := selectPrimaryDiagnostic videoQueryResult.diagnostics
    let nextScene :=
      { scene with
          videoUrl := orUndefined videoUrl
          status := if truthyOptStr videoUrl then SceneStatus.complete else SceneStatus.failed }
    let st2 :=
      if truthyOptStr videoUrl = false then
        addIssue st1
          { stage := .video_production
            sceneId := some scene.id
            message :=
              match failureDiagnostic with
              | some d => "Video generation returned no output. " ++ d.message
              | none => "Video generation returned no output."
            recoverable := true
            error := failureDiagnostic.bind fun d => d.error }
      else st1
    let st3 :=
      match st2.projectState with
      | some proj =>
        updateProject st2
          { proj with scenes := proj.scenes.map fun s => if s.id = scene.id then nextScene else s }
      | none => st2
    (nextScene, st3)
  | .error e =>
    let st2 := addIssue st1
      { stage := .video_production
        sceneId := some scene.id
        message := "Video generation failed."
        recoverable := true
        error := some (toSerializedError e) }
    let nextScene := { scene with status := SceneStatus.failed }
    let st3 :=
      match st2.projectState with
      | some proj =>
        updateProject st2
          { proj with scenes := proj.scenes.map fun s => if s.id = scene.id then nextScene else s }
      | none => st2
    (nextScene, st3)

/-- The video-production loop (lines 349–431): for each scene in order,
check cancellation, then run the video-production iteration. -/
def videoLoop (options : GenerationPipelineOptions)
    (deps : GenerationPipelineDependencies) :
    List Scene → Nat → List Scene → PipeSt → Except PipeSt (List Scene × PipeSt)
  | [], _, videoScenes, st => Except.ok (videoScenes, st)
  | scene :: rest, index, videoScenes, st =>
    match checkCancelled options st with
    | .error stHalt => Except.error stHalt
    | .ok st0 =>
      let step := videoStep deps index scene st0
      videoLoop options deps rest (index + 1) (videoScenes ++ [step.1]) step.2

/-- The voiceover stage (lines 442–470): one adapter call for the whole
project; returns `voiceoverUrl` and the updated state. -/
def voiceoverStage (deps : GenerationPipelineDependencies) (st : PipeSt) :
    Option String × PipeSt :=
  match deps.generateVoiceover with
  | .ok value =>
    let voiceoverResult := normalizeAssetResult value
    let failureDiagnostic := selectPrimaryDiagnostic voiceoverResult.diagnostics
    let voiceoverUrl := orUndefined voiceoverResult.url
    if voiceoverUrl = none then
      (voiceoverUrl, addIssue st
        { stage := .voiceover
          sceneId := none
          message :=
            match failureDiagnostic with
            | some d => "Voiceover generation returned no audio. " ++ d.message
            | none => "Voiceover generation returned no audio."
          recoverable := true
          error := failureDiagnostic.bind fun d => d.error })
    else (voiceoverUrl, st)
  | .error e =>
    (none, addIssue st
      { stage := .voiceover
        sceneId := none
        message := "Voiceover generation failed."
        recoverable := true
        error := some (toSerializedError e) })

/-- The scoring stage (lines 481–518): one music-adapter call; a null url
and a fallback track each record a (distinct) recoverable issue. -/
def musicStage (deps : GenerationPipelineDependencies) (st : PipeSt) :
    Option String × PipeSt :=
  match deps.generateMusic with
  | .ok value =>
    let musicQueryResult := normalizeAssetResult value
    let failureDiagnostic := selectPrimaryDiagnostic musicQueryResult.diagnostics
    let musicUrl := orUndefined musicQueryResult.url
    if musicUrl = none then
      (musicUrl, addIssue st
        { stage := .scoring
          sceneId := none
          message :=
            match failureDiagnostic with
            | some d => "Music generation returned no audio. " ++ d.message
            | none => "Music generation returned no audio."
          recoverable := true
          error := failureDiagnostic.bind fun d => d.error })
    else if musicQueryResult.fallbackUsed then
      (musicUrl, addIssue st
        { stage := .scoring
          sceneId := none
          message :=
            match failureDiagnostic with
            | some d => "Music generation used fallback track. " ++ d.message
            | none => "Music generation used fallback track."
          recoverable := true
          error := failureDiagnostic.bind fun d => d.error })
    else (musicUrl, st)
  | .error e =>
    (none, addIssue st
      { stage := .scoring
        sceneId := none
        message := "Music generation failed."
        recoverable := true
        error := some (toSerializedError e) })

/-- Finalization (lines 520–543): defensively check initialization, then
unconditionally set phase `ready`, `isGenerating = false`, attach the scene
list and the two audio URLs, broadcast, and resolve. -/
def pipelineFinish (plan : AdPlan) (videoScenes : List Scene)
    (voiceoverUrl musicUrl : Option String) (st : PipeSt) : PipelineRun :=
  match st.projectState with
  | none => mkRun st (.error .notInitialized)
  | some projectState =>
    let finalProject :=
      { projectState with
          currentPhase := PipelinePhase.ready
          isGenerating := false
          scenes := videoScenes
          voiceoverUrl := voiceoverUrl
          musicUrl := musicUrl }
    let st1 := updateProject st finalProject
    mkRun st1 (.ok
      { plan := plan
        project := finalProject
        scenes := videoScenes
        voiceoverUrl := voiceoverUrl
        musicUrl := musicUrl
        issues := st1.issues })

/-- Lines 472–543: the `scoring`-phase cancellation check, the phase
transition broadcast (which also attaches `voiceoverUrl`), the music stage
and finalization. -/
def pipelineScoring (options : GenerationPipelineOptions)
    (deps : GenerationPipelineDependencies) (plan : AdPlan)
    (videoScenes : List Scene) (voiceoverUrl : Option String) (st : PipeSt) : PipelineRun :=
  match checkCancelled options st with
  | .error stHalt => mkRun stHalt (.error .cancelled)
  | .ok st0 =>
    let st1 :=
      match st0.projectState with
      | some proj =>
        updateProject st0
          { proj with currentPhase := PipelinePhase.scoring, voiceoverUrl := voiceoverUrl }
      | none => st0
    let stagePair := musicStage deps st1
    pipelineFinish plan videoScenes voiceoverUrl stagePair.1 stagePair.2

/-- Lines 433–470 then onward: the `voiceover`-phase cancellation check, the
phase transition broadcast (which also attaches the scene list), and the
voiceover stage. -/
def pipelineVoiceover (options : GenerationPipelineOptions)
    (deps : GenerationPipelineDependencies) (plan : AdPlan)
    (videoScenes : List Scene) (st : PipeSt) : PipelineRun :=
  match checkCancelled options st with
  | .error stHalt => mkRun stHalt (.error .cancelled)
  | .ok st0 =>
    let st1 :=
      match st0.projectState with
      | some proj =>
        updateProject st0
          { proj with currentPhase := PipelinePhase.voiceover, scenes := videoScenes }
      | none => st0
    let stagePair := voiceoverStage deps st1
    pipelineScoring options deps plan videoScenes stagePair.1 stagePair.2

/-- Lines 340–431 then onward: the `video_production`-phase cancellation
check, the phase transition broadcast, and the video loop. -/
def pipelineVideo (options : GenerationPipelineOptions)
    (deps : GenerationPipelineDependencies) (plan : AdPlan)
    (storyboardedScenes : List Scene) (st : PipeSt) : PipelineRun :=
  match checkCancelled options st with
  | .error stHalt => mkRun stHalt (.error .cancelled)
  | .ok st0 =>
    let st1 :=
      match st0.projectState with
      | some proj =>
        updateProject st0
          { proj with currentPhase := PipelinePhase.video_production, scenes := storyboardedScenes }
      | none => st0
    match videoLoop options deps storyboardedScenes 0 [] st1 with
    | .error stHalt => mkRun stHalt (.error .cancelled)
    | .ok (videoScenes, st2) => pipelineVoiceover options deps plan videoScenes st2

/-- Lines 252–338 then onward: project initialization (fires
`onProjectInitialized`, line 263) and the storyboarding loop. -/
def pipelineStoryboard (options : GenerationPipelineOptions)
    (deps : GenerationPipelineDependencies) (plan : AdPlan) (st : PipeSt) : PipelineRun :=
  let initialProject := initialProjectOf options plan
  let st0 := { st with
    projectState := some initialProject
    initCalls := st.initCalls ++ [initialProject] }
  match storyboardLoop options deps initialProject.scenes 0 [] st0 with
  | .error stHalt => mkRun stHalt (.error .cancelled)
  | .ok (storyboardedScenes, st1) => pipelineVideo options deps plan storyboardedScenes st1

/-- Model of `runGenerationPipeline` (lines 167–544): the initial cancellation check
(line 240), the plan stage (lines 242–248, the only stage that re-throws),
the post-plan cancellation check (line 250), and the rest of the run. -/
def runGenerationPipeline (options : GenerationPipelineOptions)
    (deps : GenerationPipelineDependencies) : PipelineRun :=
  let st0 : PipeSt :=
    { projectState := none, initCalls := [], updates := [], issues := [], cancelSamples := 0 }
  match checkCancelled options st0 with
  | .error stHalt => mkRun stHalt (.error .cancelled)
  | .ok st1 =>
    match deps.generateAdPlan with
    | .error e => mkRun st1 (.error (.planFailed e))
    | .ok plan =>
      match checkCancelled options st1 with
      | .error stHalt => mkRun stHalt (.error .cancelled)
      | .ok st2 => pipelineStoryboard options deps plan st2

/-! ## Derived descriptions of a run, used to state the claims -/

/-- Whether a run resolved (did not throw). -/
def runResolved (run : PipelineRun) : Bool :=
  match run.result with
  | .ok _ => true
  | .error _ => false

/-- The project of a resolved run. -/
def runProject (run : PipelineRun) : Option AdProject :=
  match run.result with
  | .ok r => some r.project
  | .error _ => none

/-- The scene list of the project of a resolved run (empty for a rejected
run). -/
def runScenes (run : PipelineRun) : List Scene :=
  match run.result with
  | .ok r => r.project.scenes
  | .error _ => []

/-- The issue list of a resolved run (empty for a rejected run). -/
def runIssues (run : PipelineRun) : List PipelineIssue :=
  match run.result with
  | .ok r => r.issues
  | .error _ => []

/-- The plan of a resolved run. -/
def runPlan (run : PipelineRun) : Option AdPlan :=
  match run.result with
  | .ok r => some r.plan
  | .error _ => none

/-- The position of a phase in the fixed total order
`planning < storyboarding < video_production < voiceover < scoring <
(mixing) < ready` (`mixing` is reserved for export and never produced by the
pipeline). -/
def phaseNat : PipelinePhase → Nat
  | .planning => 0
  | .storyboarding => 1
  | .video_production => 2
  | .voiceover => 3
  | .scoring => 4
  | .mixing => 5
  | .ready => 6

/-- Phase comparison of two broadcast projects. -/
def phasesLE (a b : AdProject) : Prop :=
  phaseNat a.currentPhase ≤ phaseNat b.currentPhase

/-- Map with an explicit running index. -/
def mapIdxFrom (f : Nat → α → β) : Nat → List α → List β
  | _, [] => []
  | i, a :: rest => f i a :: mapIdxFrom f (i + 1) rest

/-- The scene produced by one storyboarding iteration, as a function of the
scene and the adapter outcome. -/
def storyboardSceneResult (deps : GenerationPipelineDependencies) (index : Nat)
    (scene : Scene) : Scene :=
  match deps.generateStoryboardImage index with
  | .ok value => { scene with storyboardUrl := orUndefined (normalizeAssetResult value).url }
  | .error _ => { scene with storyboardUrl := none }

/-- The scene produced by one video-production iteration. -/
def videoSceneResult (deps : GenerationPipelineDependencies) (index : Nat)
    (scene : Scene) : Scene :=
  match deps.generateVideoClip index with
  | .ok value =>
    let url := (normalizeAssetResult value).url
    { scene with
        videoUrl := orUndefined url
        status := if truthyOptStr url then SceneStatus.complete else SceneStatus.failed }
  | .error _ => { scene with status := SceneStatus.failed }

/-- The scene list of a resolved run, as a function of the plan and the
per-scene adapter outcomes. -/
def pipelineFinalScenes (deps : GenerationPipelineDependencies) (plan : AdPlan) : List Scene :=
  mapIdxFrom (videoSceneResult deps) 0
    (mapIdxFrom (storyboardSceneResult deps) 0 ((plan.scenes.getD []).map initScene))

/-- No-cancellation hypothesis: the cancellation predicate, if supplied,
never answers `true`. -/
def noCancel (options : GenerationPipelineOptions) : Prop :=
  ∀ f, options.shouldCancel = some f → ∀ n, f n = false

/-- The plan-provided fields of a pipeline scene (everything except
`status`, `storyboardUrl`, `videoUrl`). -/
def scenePlanFields (s : Scene) :=
  (s.id, s.order, s.duration, s.character, s.environment, s.camera,
    s.action_blocking, s.visual_summary_prompt, s.textOverlay, s.overlayConfig)

/-- The same fields read off a plan scene. -/
def planSceneFields (p : PlanScene) :=
  (p.id, p.order, p.duration, p.character, p.environment, p.camera,
    p.action_blocking, p.visual_summary_prompt, p.textOverlay, p.overlayConfig)

/-! ## Concrete fixtures used by witnesses and counterexamples -/

/-- A concrete plan scene. -/
def sampleScenePlan : PlanScene :=
  { id := "scene-1"
    order := 1
    duration := 4
    character := { name := "Ava", description := "lead", hair := "short", face := "calm", wardrobe := "denim" }
    environment := { location := "studio", look := "clean", lighting := "soft", background_motion := "none" }
    camera := { framing := "wide", movement := "dolly", notes := "none" }
    action_blocking := [{ time_window := "0-2", notes := "walks in" }]
    visual_summary_prompt := "A lead walks through a studio"
    textOverlay := "Now"
    overlayConfig := none }

/-- A concrete plan with one scene. -/
def samplePlan : AdPlan :=
  { title := "Launch"
    concept := "minimal"
    musicMood := "calm"
    fullScript := "hello"
    script := none
    characterProfile := none
    visualStyleProfile := none
    scenes := some [sampleScenePlan] }

/-- Concrete settings. -/
def sampleSettings : ProjectSettings :=
  { customScript := ""
    musicTheme := "cinematic"
    useTextOverlays := .auto
    textOverlayFont := none
    preferredVoice := .auto
    aspect := .sixteenNine
    mode := .commercial }

/-- Concrete options without cancellation. -/
def baseOptions : GenerationPipelineOptions :=
  { prompt := "make an ad"
    settings := sampleSettings
    files := []
    visualAnchorDataUrl := none
    preferredVoice := .puck
    shouldCancel := none }

/-- Adapter outcomes in which every call succeeds with a usable asset. -/
def okDeps : GenerationPipelineDependencies :=
  { generateAdPlan := .ok samplePlan
    generateStoryboardImage := fun _ => .ok (.str ("data:image/png;base64,AAAA"))
    generateVideoClip := fun _ => .ok (.str ("blob:video-1"))
    generateVoiceover := .ok (.str ("blob:voice"))
    generateMusic := .ok (.obj (some ("https://track")) false none) }

/-- Like `okDeps`, but the storyboard adapter returns a non-object value
(normalized url `null`). -/
def nullStoryboardDeps : GenerationPipelineDependencies :=
  { okDeps with generateStoryboardImage := fun _ => .ok .nonObject }

/-- Like `okDeps`, but the storyboard adapter returns a structured result
with `url: ""` and the video adapter returns the bare string `""`. -/
def emptyUrlDeps : GenerationPipelineDependencies :=
  { okDeps with
      generateStoryboardImage := fun _ => .ok (.obj (some ("")) false none)
      generateVideoClip := fun _ => .ok (.str ("")) }

/-- Options whose cancellation predicate first answers `true` at the second
sample: the post-plan `checkCancelled('planning')` call (line 250). -/
def cancelAfterPlanOptions : GenerationPipelineOptions :=
  { baseOptions with shouldCancel := some (fun n => decide (n = 1)) }

/-- Options whose cancellation predicate first answers `true` at the third
sample: the first check after `onProjectInitialized` has fired. -/
def cancelBeforeStoryboardOptions : GenerationPipelineOptions :=
  { baseOptions with shouldCancel := some (fun n => decide (2 ≤ n)) }

/-- A concrete pipeline scene (the sample plan scene entering the run). -/
def sampleScene : Scene := initScene sampleScenePlan

/-- A concrete Veo environment whose image-conditioned attempt fails and
whose text-only attempt succeeds. -/
def sampleVeoEnv : VeoEnv :=
  { hasApiKey := true
    imageToVideo := fun _ => { url := none, diagnostics := [] }
    textToVideo := fun _ => { url := some ("blob:video-text"), diagnostics := [] } }

/-- A concrete parseable data URL. -/
def sampleDataUrl : String := "data:image/png;base64,AAAA"

/-- The broadcast invariant driving the forward-only phase property:
all broadcasts so far are phase-sorted and bounded by `bound`, and the
current `projectState` (when set) sits exactly at `bound`. -/
def updatesOK (bound : Nat) (st : PipeSt) : Prop :=
  st.updates.Pairwise phasesLE ∧
    (∀ u ∈ st.updates, phaseNat u.currentPhase ≤ bound) ∧
    (∀ proj, st.projectState = some proj → phaseNat proj.currentPhase = bound)

/-! ## Helper lemmas -/

theorem addIssue_projectState (st : PipeSt) (issue : PipelineIssue) :
    (addIssue st issue).projectState = st.projectState := rfl

theorem addIssue_initCalls (st : PipeSt) (issue : PipelineIssue) :
    (addIssue st issue).initCalls = st.initCalls := rfl

theorem addIssue_updates (st : PipeSt) (issue : PipelineIssue) :
    (addIssue st issue).updates = st.updates := rfl

theorem addIssue_issues (st : PipeSt) (issue : PipelineIssue) :
    (addIssue st issue).issues = st.issues ++ [issue] := rfl

theorem updateProject_projectState (st : PipeSt) (p : AdProject) :
    (updateProject st p).projectState = some p := rfl

theorem updateProject_initCalls (st : PipeSt) (p : AdProject) :
    (updateProject st p).initCalls = st.initCalls := rfl

theorem updateProject_updates (st : PipeSt) (p : AdProject) :
    (updateProject st p).updates = st.updates ++ [p] := rfl

theorem updateProject_issues (st : PipeSt) (p : AdProject) :
    (updateProject st p).issues = st.issues := rfl

theorem checkCancelled_ok_fields {options : GenerationPipelineOptions} {st st' : PipeSt}
    (h : checkCancelled options st = Except.ok st') :
    st'.projectState = st.projectState ∧ st'.initCalls = st.initCalls ∧
      st'.updates = st.updates ∧ st'.issues = st.issues := by
  unfold checkCancelled at h
  cases hsc : options.shouldCancel with
  | none =>
    rw [hsc] at h
    cases h
    exact ⟨rfl, rfl, rfl, rfl⟩
  | some p =>
    rw [hsc] at h
    cases hb : p st.cancelSamples <;> simp [hb] at h
    subst h
    exact ⟨rfl, rfl, rfl, rfl⟩

theorem checkCancelled_err_fields {options : GenerationPipelineOptions} {st st' : PipeSt}
    (h : checkCancelled options st = Except.error st') :
    st'.projectState = st.projectState ∧ st'.initCalls = st.initCalls ∧
      st'.updates = st.updates ∧ st'.issues = st.issues := by
  unfold checkCancelled at h
  cases hsc : options.shouldCancel with
  | none => rw [hsc] at h; cases h
  | some p =>
    rw [hsc] at h
    cases hb : p st.cancelSamples <;> simp [hb] at h
    subst h
    exact ⟨rfl, rfl, rfl, rfl⟩

theorem checkCancelled_noCancel {options : GenerationPipelineOptions} (hnc : noCancel options)
    (st : PipeSt) :
    ∃ st', checkCancelled options st = Except.ok st' ∧ st'.projectState = st.projectState ∧
      st'.initCalls = st.initCalls ∧ st'.updates = st.updates ∧ st'.issues = st.issues := by
  unfold checkCancelled
  cases hsc : options.shouldCancel with
  | none => exact ⟨st, rfl, rfl, rfl, rfl, rfl⟩
  | some p =>
    refine ⟨{ st with cancelSamples := st.cancelSamples + 1 }, ?_, rfl, rfl, rfl, rfl⟩
    simp [hnc p hsc st.cancelSamples]

theorem mapIdxFrom_length (f : Nat → α → β) (i : Nat) (l : List α) :
    (mapIdxFrom f i l).length = l.length := by
  induction l generalizing i with
  | nil => rfl
  | cons a t ih => simp [mapIdxFrom, ih]

theorem mapIdxFrom_getElem? (f : Nat → α → β) (i j : Nat) (l : List α) :
    (mapIdxFrom f i l)[j]? = (l[j]?).map (f (i + j)) := by
  induction l generalizing i j with
  | nil => simp [mapIdxFrom]
  | cons a t ih =>
    cases j with
    | zero => simp [mapIdxFrom]
    | succ j =>
      have harith : i + 1 + j = i + (j + 1) := by omega
      simp [mapIdxFrom, ih, harith]

theorem mapIdxFrom_mem {f : Nat → α → β} {i : Nat} {l : List α} {b : β}
    (h : b ∈ mapIdxFrom f i l) : ∃ j a, l[j]? = some a ∧ b = f (i + j) a := by
  induction l generalizing i with
  | nil => simp [mapIdxFrom] at h
  | cons a t ih =>
    simp only [mapIdxFrom, List.mem_cons] at h
    rcases h with h | h
    · exact ⟨0, a, by simp, by simpa using h⟩
    · obtain ⟨j, a', hj, hb⟩ := ih h
      refine ⟨j + 1, a', by simpa using hj, ?_⟩
      have harith : i + 1 + j = i + (j + 1) := by omega
      rw [hb, harith]

theorem storyboardStep_fst (deps : GenerationPipelineDependencies) (index : Nat)
    (scene : Scene) (st : PipeSt) :
    (storyboardStep deps index scene st).1 = storyboardSceneResult deps index scene := by
  unfold storyboardStep storyboardSceneResult
  cases hsb : deps.generateStoryboardImage index <;> rfl

theorem storyboardStep_issues (deps : GenerationPipelineDependencies) (index : Nat)
    (scene : Scene) (st : PipeSt) :
    ∃ ext, (storyboardStep deps index scene st).2.issues = st.issues ++ ext := by
  unfold storyboardStep
  cases hsb : deps.generateStoryboardImage index with
  | ok value =>
    dsimp only
    by_cases hc : truthyOptStr (normalizeAssetResult value).url = false
    · rw [if_pos hc]
      simp only [addIssue_projectState]
      cases hps : st.projectState
      · exact ⟨_, rfl⟩
      · exact ⟨_, rfl⟩
    · rw [if_neg hc]
      cases hps : st.projectState
      · exact ⟨[], by simp⟩
      · exact ⟨[], by simp [updateProject]⟩
  | error e =>
    dsimp only
    simp only [addIssue_projectState]
    cases hps : st.projectState
    · exact ⟨_, rfl⟩
    · exact ⟨_, rfl⟩

theorem storyboardStep_isSome (deps : GenerationPipelineDependencies) (index : Nat)
    (scene : Scene) (st : PipeSt) (h : st.projectState.isSome = true) :
    (storyboardStep deps index scene st).2.projectState.isSome = true := by
  unfold storyboardStep
  cases hps : st.projectState with
  | none => rw [hps] at h; cases h
  | some proj =>
    cases hsb : deps.generateStoryboardImage index with
    | ok value =>
      dsimp only
      by_cases hc : truthyOptStr (normalizeAssetResult value).url = false
      · rw [if_pos hc]
        simp [addIssue_projectState, hps, updateProject]
      · rw [if_neg hc]
        simp [hps, updateProject]
    | error e =>
      dsimp only
      simp [addIssue_projectState, hps, updateProject]

theorem storyboardStep_nullIssue (deps : GenerationPipelineDependencies) (index : Nat)
    (scene : Scene) (st : PipeSt) {v : JsValue}
    (hsb : deps.generateStoryboardImage index = Except.ok v)
    (hnull : truthyOptStr (normalizeAssetResult v).url = false) :
    ∃ issue ∈ (storyboardStep deps index scene st).2.issues,
      issue.stage = PipelinePhase.storyboarding ∧ issue.sceneId = some scene.id ∧
        issue.recoverable = true := by
  unfold storyboardStep
  rw [hsb]
  dsimp only
  rw [if_pos hnull]
  simp only [addIssue_projectState]
  cases hps : st.projectState
  · exact ⟨_, List.mem_append_right _ (List.mem_singleton_self _), rfl, rfl, rfl⟩
  · exact ⟨_, List.mem_append_right _ (List.mem_singleton_self _), rfl, rfl, rfl⟩

theorem storyboardStep_updatesOK {bound : Nat} (deps : GenerationPipelineDependencies)
    (index : Nat) (scene : Scene) {st : PipeSt} (h : updatesOK bound st) :
    updatesOK bound ((storyboardStep deps index scene st).2) := by
  obtain ⟨hpw, hbound, hproj⟩ := h
  unfold storyboardStep
  cases hsb : deps.generateStoryboardImage index with
  | ok value =>
    dsimp only
    by_cases hc : truthyOptStr (normalizeAssetResult value).url = false
    · rw [if_pos hc]
      simp only [addIssue_projectState]
      cases hps : st.projectState with
      | none =>
        refine ⟨hpw, hbound, ?_⟩
        intro proj hp
        rw [addIssue_projectState, hps] at hp
        cases hp
      | some proj =>
        have hb : phaseNat proj.currentPhase = bound := hproj proj hps
        refine ⟨?_, ?_, ?_⟩
        · rw [updateProject_updates, List.pairwise_append]
          refine ⟨hpw, List.pairwise_singleton _ _, ?_⟩
          intro a ha c hc'
          rw [List.mem_singleton] at hc'
          subst hc'
          show phaseNat a.currentPhase ≤ phaseNat proj.currentPhase
          rw [hb]
          exact hbound a ha
        · intro u hu
          rw [updateProject_updates] at hu
          rcases List.mem_append.1 hu with h' | h'
          · exact hbound u h'
          · rw [List.mem_singleton] at h'
            subst h'
            show phaseNat proj.currentPhase ≤ bound
            rw [hb]
        · intro p hp
          rw [updateProject_projectState] at hp
          cases hp
          exact hb
    · rw [if_neg hc]
      cases hps : st.projectState with
      | none =>
        refine ⟨hpw, hbound, ?_⟩
        intro proj hp
        rw [hps] at hp
        cases hp
      | some proj =>
        have hb : phaseNat proj.currentPhase = bound := hproj proj hps
        refine ⟨?_, ?_, ?_⟩
        · rw [updateProject_updates, List.pairwise_append]
          refine ⟨hpw, List.pairwise_singleton _ _, ?_⟩
          intro a ha c hc'
          rw [List.mem_singleton] at hc'
          subst hc'
          show phaseNat a.currentPhase ≤ phaseNat proj.currentPhase
          rw [hb]
          exact hbound a ha
        · intro u hu
          rw [updateProject_updates] at hu
          rcases List.mem_append.1 hu with h' | h'
          · exact hbound u h'
          · rw [List.mem_singleton] at h'
            subst h'
            show phaseNat proj.currentPhase ≤ bound
            rw [hb]
        · intro p hp
          rw [updateProject_projectState] at hp
          cases hp
          exact hb
  | error e =>
    dsimp only
    simp only [addIssue_projectState]
    cases hps : st.projectState with
    | none =>
      refine ⟨hpw, hbound, ?_⟩
      intro proj hp
      rw [addIssue_projectState, hps] at hp
      cases hp
    | some proj =>
      have hb : phaseNat proj.currentPhase = bound := hproj proj hps
      refine ⟨?_, ?_, ?_⟩
      · rw [updateProject_updates, List.pairwise_append]
        refine ⟨hpw, List.pairwise_singleton _ _, ?_⟩
        intro a ha c hc'
        rw [List.mem_singleton] at hc'
        subst hc'
        show phaseNat a.currentPhase ≤ phaseNat proj.currentPhase
        rw [hb]
        exact hbound a ha
      · intro u hu
        rw [updateProject_updates] at hu
        rcases List.mem_append.1 hu with h' | h'
        · exact hbound u h'
        · rw [List.mem_singleton] at h'
          subst h'
          show phaseNat proj.currentPhase ≤ bound
          rw [hb]
      · intro p hp
        rw [updateProject_projectState] at hp
        cases hp
        exact hb

theorem addIssue_updatesOK {bound : Nat} {st : PipeSt} (h : updatesOK bound st)
    (issue : PipelineIssue) : updatesOK bound (addIssue st issue) := by
  obtain ⟨hpw, hbound, hproj⟩ := h
  refine ⟨hpw, hbound, ?_⟩
  intro proj hp
  rw [addIssue_projectState] at hp
  exact hproj proj hp

theorem updateProject_updatesOK {bound : Nat} {st : PipeSt} (h : updatesOK bound st)
    {proj : AdProject} (hps : st.projectState = some proj) {next : AdProject}
    (hnext : next.currentPhase = proj.currentPhase) :
    updatesOK bound (updateProject st next) := by
  obtain ⟨hpw, hbound, hproj⟩ := h
  have hb : phaseNat proj.currentPhase = bound := hproj proj hps
  refine ⟨?_, ?_, ?_⟩
  · rw [updateProject_updates, List.pairwise_append]
    refine ⟨hpw, List.pairwise_singleton _ _, ?_⟩
    intro a ha c hc'
    rw [List.mem_singleton] at hc'
    rw [hc']
    show phaseNat a.currentPhase ≤ phaseNat next.currentPhase
    rw [hnext, hb]
    exact hbound a ha
  · intro u hu
    rw [updateProject_updates] at hu
    rcases List.mem_append.1 hu with h' | h'
    · exact hbound u h'
    · rw [List.mem_singleton] at h'
      rw [h']
      show phaseNat next.currentPhase ≤ bound
      rw [hnext, hb]
  · intro p hp
    rw [updateProject_projectState] at hp
    cases hp
    rw [hnext, hb]

theorem videoStep_fst (deps : GenerationPipelineDependencies) (index : Nat)
    (scene : Scene) (st : PipeSt) :
    (videoStep deps index scene st).1 = videoSceneResult deps index scene := by
  unfold videoStep videoSceneResult
  cases hps : st.projectState <;> cases hv : deps.generateVideoClip index <;> rfl

theorem videoStep_issues (deps : GenerationPipelineDependencies) (index : Nat)
    (scene : Scene) (st : PipeSt) :
    ∃ ext, (videoStep deps index scene st).2.issues = st.issues ++ ext := by
  unfold videoStep
  cases hps : st.projectState with
  | none =>
    dsimp only
    cases hv : deps.generateVideoClip index with
    | ok value =>
      dsimp only
      by_cases hc : truthyOptStr (normalizeAssetResult value).url = false
      · rw [if_pos hc]
        simp only [addIssue_projectState]
        rw [hps]
        exact ⟨_, rfl⟩
      · rw [if_neg hc]
        rw [hps]
        exact ⟨[], by simp⟩
    | error e =>
      dsimp only
      simp only [addIssue_projectState]
      rw [hps]
      exact ⟨_, rfl⟩
  | some proj =>
    dsimp only
    cases hv : deps.generateVideoClip index with
    | ok value =>
      dsimp only
      by_cases hc : truthyOptStr (normalizeAssetResult value).url = false
      · rw [if_pos hc]
        simp only [addIssue_projectState, updateProject_projectState]
        exact ⟨_, rfl⟩
      · rw [if_neg hc]
        simp only [updateProject_projectState]
        exact ⟨[], by simp [updateProject]⟩
    | error e =>
      dsimp only
      simp only [addIssue_projectState, updateProject_projectState]
      exact ⟨_, rfl⟩

theorem videoStep_isSome (deps : GenerationPipelineDependencies) (index : Nat)
    (scene : Scene) (st : PipeSt) (h : st.projectState.isSome = true) :
    (videoStep deps index scene st).2.projectState.isSome = true := by
  unfold videoStep
  cases hps : st.projectState with
  | none => rw [hps] at h; cases h
  | some proj =>
    dsimp only
    cases hv : deps.generateVideoClip index with
    | ok value =>
      dsimp only
      by_cases hc : truthyOptStr (normalizeAssetResult value).url = false
      · rw [if_pos hc]
        simp [addIssue_projectState, updateProject_projectState, updateProject]
      · rw [if_neg hc]
        simp [updateProject_projectState, updateProject]
    | error e =>
      dsimp only
      simp [addIssue_projectState, updateProject_projectState, updateProject]

theorem videoStep_nullIssue (deps : GenerationPipelineDependencies) (index : Nat)
    (scene : Scene) (st : PipeSt) {v : JsValue}
    (hv : deps.generateVideoClip index = Except.ok v)
    (hnull : truthyOptStr (normalizeAssetResult v).url = false) :
    ∃ issue ∈ (videoStep deps index scene st).2.issues,
      issue.stage = PipelinePhase.video_production ∧ issue.sceneId = some scene.id ∧
        issue.recoverable = true := by
  unfold videoStep
  cases hps : st.projectState with
  | none =>
    dsimp only
    rw [hv]
    dsimp only
    rw [if_pos hnull]
    simp only [addIssue_projectState]
    rw [hps]
    exact ⟨_, List.mem_append_right _ (List.mem_singleton_self _), rfl, rfl, rfl⟩
  | some proj =>
    dsimp only
    rw [hv]
    dsimp only
    rw [if_pos hnull]
    simp only [addIssue_projectState, updateProject_projectState]
    exact ⟨_, List.mem_append_right _ (List.mem_singleton_self _), rfl, rfl, rfl⟩

theorem videoStep_updatesOK {bound : Nat} (deps : GenerationPipelineDependencies)
    (index : Nat) (scene : Scene) {st : PipeSt} (h : updatesOK bound st) :
    updatesOK bound ((videoStep deps index scene st).2) := by
  unfold videoStep
  cases hps : st.projectState with
  | none =>
    dsimp only
    cases hv : deps.generateVideoClip index with
    | ok value =>
      dsimp only
      by_cases hc : truthyOptStr (normalizeAssetResult value).url = false
      · rw [if_pos hc]
        simp only [addIssue_projectState]
        rw [hps]
        exact addIssue_updatesOK h _
      · rw [if_neg hc]
        rw [hps]
        exact h
    | error e =>
      dsimp only
      simp only [addIssue_projectState]
      rw [hps]
      exact addIssue_updatesOK h _
  | some proj =>
    dsimp only
    have h1 : updatesOK bound (updateProject st
        { proj with scenes := proj.scenes.map fun s =>
            if s.id = scene.id then { s with status := SceneStatus.generating } else s }) :=
      updateProject_updatesOK h hps rfl
    cases hv : deps.generateVideoClip index with
    | ok value =>
      dsimp only
      by_cases hc : truthyOptStr (normalizeAssetResult value).url = false
      · rw [if_pos hc]
        simp only [addIssue_projectState, updateProject_projectState]
        exact updateProject_updatesOK (addIssue_updatesOK h1 _) rfl rfl
      · rw [if_neg hc]
        simp only [updateProject_projectState]
        exact updateProject_updatesOK h1 rfl rfl
    | error e =>
      dsimp only
      simp only [addIssue_projectState, updateProject_projectState]
      exact updateProject_updatesOK (addIssue_updatesOK h1 _) rfl rfl

theorem checkCancelled_ok_updatesOK {bound : Nat} {options : GenerationPipelineOptions}
    {st st' : PipeSt} (h : checkCancelled options st = Except.ok st')
    (hOK : updatesOK bound st) : updatesOK bound st' := by
  obtain ⟨hps, _, hupd, _⟩ := checkCancelled_ok_fields h
  obtain ⟨hpw, hbound, hproj⟩ := hOK
  refine ⟨?_, ?_, ?_⟩
  · rw [hupd]; exact hpw
  · intro u hu; rw [hupd] at hu; exact hbound u hu
  · intro proj hp; rw [hps] at hp; exact hproj proj hp

theorem checkCancelled_err_updatesOK {bound : Nat} {options : GenerationPipelineOptions}
    {st st' : PipeSt} (h : checkCancelled options st = Except.error st')
    (hOK : updatesOK bound st) : updatesOK bound st' := by
  obtain ⟨hps, _, hupd, _⟩ := checkCancelled_err_fields h
  obtain ⟨hpw, hbound, hproj⟩ := hOK
  refine ⟨?_, ?_, ?_⟩
  · rw [hupd]; exact hpw
  · intro u hu; rw [hupd] at hu; exact hbound u hu
  · intro proj hp; rw [hps] at hp; exact hproj proj hp

theorem storyboardLoop_ok_scenes {options : GenerationPipelineOptions}
    {deps : GenerationPipelineDependencies} :
    ∀ (scenes : List Scene) (index : Nat) (acc : List Scene) {st : PipeSt}
      {out : List Scene} {st' : PipeSt},
      storyboardLoop options deps scenes index acc st = Except.ok (out, st') →
      out = acc ++ mapIdxFrom (storyboardSceneResult deps) index scenes := by
  intro scenes
  induction scenes with
  | nil =>
    intro index acc st out st' h
    simp only [storyboardLoop] at h
    cases h
    simp [mapIdxFrom]
  | cons scene rest ih =>
    intro index acc st out st' h
    simp only [storyboardLoop] at h
    cases hcc : checkCancelled options st with
    | error stHalt => rw [hcc] at h; simp at h
    | ok st0 =>
      rw [hcc] at h
      dsimp only at h
      have := ih (index + 1) (acc ++ [(storyboardStep deps index scene st0).1]) h
      rw [storyboardStep_fst] at this
      simp [this, mapIdxFrom, List.append_assoc]

theorem storyboardLoop_ok_state {options : GenerationPipelineOptions}
    {deps : GenerationPipelineDependencies} :
    ∀ (scenes : List Scene) (index : Nat) (acc : List Scene) {st : PipeSt}
      {out : List Scene} {st' : PipeSt},
      storyboardLoop options deps scenes index acc st = Except.ok (out, st') →
      (∃ ext, st'.issues = st.issues ++ ext) ∧
        (st.projectState.isSome = true → st'.projectState.isSome = true) := by
  intro scenes
  induction scenes with
  | nil =>
    intro index acc st out st' h
    simp only [storyboardLoop] at h
    cases h
    exact ⟨⟨[], by simp⟩, fun h => h⟩
  | cons scene rest ih =>
    intro index acc st out st' h
    simp only [storyboardLoop] at h
    cases hcc : checkCancelled options st with
    | error stHalt => rw [hcc] at h; simp at h
    | ok st0 =>
      rw [hcc] at h
      dsimp only at h
      obtain ⟨hps0, _, _, hiss0⟩ := checkCancelled_ok_fields hcc
      obtain ⟨ext1, hext1⟩ := storyboardStep_issues deps index scene st0
      obtain ⟨⟨ext2, hext2⟩, hsome⟩ := ih (index + 1) _ h
      refine ⟨⟨ext1 ++ ext2, ?_⟩, ?_⟩
      · rw [hext2, hext1, hiss0, List.append_assoc]
      · intro hs
        exact hsome (storyboardStep_isSome deps index scene st0 (by rw [hps0]; exact hs))

theorem storyboardLoop_ok_nullIssue {options : GenerationPipelineOptions}
    {deps : GenerationPipelineDependencies} :
    ∀ (scenes : List Scene) (index : Nat) (acc : List Scene) {st : PipeSt}
      {out : List Scene} {st' : PipeSt},
      storyboardLoop options deps scenes index acc st = Except.ok (out, st') →
      ∀ (j : Nat) (scene : Scene) (v : JsValue), scenes[j]? = some scene →
        deps.generateStoryboardImage (index + j) = Except.ok v →
        truthyOptStr (normalizeAssetResult v).url = false →
        ∃ issue ∈ st'.issues,
          issue.stage = PipelinePhase.storyboarding ∧ issue.sceneId = some scene.id ∧
            issue.recoverable = true := by
  intro scenes
  induction scenes with
  | nil =>
    intro index acc st out st' h j scene v hj
    simp at hj
  | cons scene0 rest ih =>
    intro index acc st out st' h j scene v hj hsb hnull
    simp only [storyboardLoop] at h
    cases hcc : checkCancelled options st with
    | error stHalt => rw [hcc] at h; simp at h
    | ok st0 =>
      rw [hcc] at h
      dsimp only at h
      cases j with
      | zero =>
        simp only [List.getElem?_cons_zero, Option.some_inj] at hj
        subst hj
        rw [Nat.add_zero] at hsb
        obtain ⟨issue, hmem, hissue⟩ := storyboardStep_nullIssue deps index scene0 st0 hsb hnull
        obtain ⟨⟨ext, hext⟩, _⟩ := storyboardLoop_ok_state rest (index + 1) _ h
        exact ⟨issue, by rw [hext]; exact List.mem_append_left _ hmem, hissue⟩
      | succ j =>
        simp only [List.getElem?_cons_succ] at hj
        have harith : index + 1 + j = index + (j + 1) := by omega
        exact ih (index + 1) _ h j scene v hj (by rw [harith]; exact hsb) hnull

theorem storyboardLoop_ok_updatesOK {bound : Nat} {options : GenerationPipelineOptions}
    {deps : GenerationPipelineDependencies} :
    ∀ (scenes : List Scene) (index : Nat) (acc : List Scene) {st : PipeSt}
      {out : List Scene} {st' : PipeSt},
      storyboardLoop options deps scenes index acc st = Except.ok (out, st') →
      updatesOK bound st → updatesOK bound st' := by
  intro scenes
  induction scenes with
  | nil =>
    intro index acc st out st' h hOK
    simp only [storyboardLoop] at h
    cases h
    exact hOK
  | cons scene rest ih =>
    intro index acc st out st' h hOK
    simp only [storyboardLoop] at h
    cases hcc : checkCancelled options st with
    | error stHalt => rw [hcc] at h; simp at h
    | ok st0 =>
      rw [hcc] at h
      dsimp only at h
      exact ih (index + 1) _ h
        (storyboardStep_updatesOK deps index scene (checkCancelled_ok_updatesOK hcc hOK))

theorem storyboardLoop_err_updatesOK {bound : Nat} {options : GenerationPipelineOptions}
    {deps : GenerationPipelineDependencies} :
    ∀ (scenes : List Scene) (index : Nat) (acc : List Scene) {st : PipeSt} {st' : PipeSt},
      storyboardLoop options deps scenes index acc st = Except.error st' →
      updatesOK bound st → updatesOK bound st' := by
  intro scenes
  induction scenes with
  | nil =>
    intro index acc st st' h hOK
    simp only [storyboardLoop] at h
    cases h
  | cons scene rest ih =>
    intro index acc st st' h hOK
    simp only [storyboardLoop] at h
    cases hcc : checkCancelled options st with
    | error stHalt =>
      rw [hcc] at h
      simp only at h
      cases h
      exact checkCancelled_err_updatesOK hcc hOK
    | ok st0 =>
      rw [hcc] at h
      dsimp only at h
      exact ih (index + 1) _ h
        (storyboardStep_updatesOK deps index scene (checkCancelled_ok_updatesOK hcc hOK))

theorem storyboardLoop_noCancel_ok {options : GenerationPipelineOptions}
    {deps : GenerationPipelineDependencies} (hnc : noCancel options) :
    ∀ (scenes : List Scene) (index : Nat) (acc : List Scene) (st : PipeSt),
      ∃ out st', storyboardLoop options deps scenes index acc st = Except.ok (out, st') := by
  intro scenes
  induction scenes with
  | nil => intro index acc st; exact ⟨acc, st, rfl⟩
  | cons scene rest ih =>
    intro index acc st
    obtain ⟨st0, hcc, -, -, -, -⟩ := checkCancelled_noCancel hnc st
    obtain ⟨out, st', h⟩ := ih (index + 1) (acc ++ [(storyboardStep deps index scene st0).1])
      ((storyboardStep deps index scene st0).2)
    refine ⟨out, st', ?_⟩
    simp only [storyboardLoop]
    rw [hcc]
    exact h

theorem videoLoop_ok_scenes {options : GenerationPipelineOptions}
    {deps : GenerationPipelineDependencies} :
    ∀ (scenes : List Scene) (index : Nat) (acc : List Scene) {st : PipeSt}
      {out : List Scene} {st' : PipeSt},
      videoLoop options deps scenes index acc st = Except.ok (out, st') →
      out = acc ++ mapIdxFrom (videoSceneResult deps) index scenes := by
  intro scenes
  induction scenes with
  | nil =>
    intro index acc st out st' h
    simp only [videoLoop] at h
    cases h
    simp [mapIdxFrom]
  | cons scene rest ih =>
    intro index acc st out st' h
    simp only [videoLoop] at h
    cases hcc : checkCancelled options st with
    | error stHalt => rw [hcc] at h; simp at h
    | ok st0 =>
      rw [hcc] at h
      dsimp only at h
      have := ih (index + 1) (acc ++ [(videoStep deps index scene st0).1]) h
      rw [videoStep_fst] at this
      simp [this, mapIdxFrom, List.append_assoc]

theorem videoLoop_ok_state {options : GenerationPipelineOptions}
    {deps : GenerationPipelineDependencies} :
    ∀ (scenes : List Scene) (index : Nat) (acc : List Scene) {st : PipeSt}
      {out : List Scene} {st' : PipeSt},
      videoLoop options deps scenes index acc st = Except.ok (out, st') →
      (∃ ext, st'.issues = st.issues ++ ext) ∧
        (st.projectState.isSome = true → st'.projectState.isSome = true) := by
  intro scenes
  induction scenes with
  | nil =>
    intro index acc st out st' h
    simp only [videoLoop] at h
    cases h
    exact ⟨⟨[], by simp⟩, fun h => h⟩
  | cons scene rest ih =>
    intro index acc st out st' h
    simp only [videoLoop] at h
    cases hcc : checkCancelled options st with
    | error stHalt => rw [hcc] at h; simp at h
    | ok st0 =>
      rw [hcc] at h
      dsimp only at h
      obtain ⟨hps0, _, _, hiss0⟩ := checkCancelled_ok_fields hcc
      obtain ⟨ext1, hext1⟩ := videoStep_issues deps index scene st0
      obtain ⟨⟨ext2, hext2⟩, hsome⟩ := ih (index + 1) _ h
      refine ⟨⟨ext1 ++ ext2, ?_⟩, ?_⟩
      · rw [hext2, hext1, hiss0, List.append_assoc]
      · intro hs
        exact hsome (videoStep_isSome deps index scene st0 (by rw [hps0]; exact hs))

theorem videoLoop_ok_nullIssue {options : GenerationPipelineOptions}
    {deps : GenerationPipelineDependencies} :
    ∀ (scenes : List Scene) (index : Nat) (acc : List Scene) {st : PipeSt}
      {out : List Scene} {st' : PipeSt},
      videoLoop options deps scenes index acc st = Except.ok (out, st') →
      ∀ (j : Nat) (scene : Scene) (v : JsValue), scenes[j]? = some scene →
        deps.generateVideoClip (index + j) = Except.ok v →
        truthyOptStr (normalizeAssetResult v).url = false →
        ∃ issue ∈ st'.issues,
          issue.stage = PipelinePhase.video_production ∧ issue.sceneId = some scene.id ∧
            issue.recoverable = true := by
  intro scenes
  induction scenes with
  | nil =>
    intro index acc st out st' h j scene v hj
    simp at hj
  | cons scene0 rest ih =>
    intro index acc st out st' h j scene v hj hv hnull
    simp only [videoLoop] at h
    cases hcc : checkCancelled options st with
    | error stHalt => rw [hcc] at h; simp at h
    | ok st0 =>
      rw [hcc] at h
      dsimp only at h
      cases j with
      | zero =>
        simp only [List.getElem?_cons_zero, Option.some_inj] at hj
        subst hj
        rw [Nat.add_zero] at hv
        obtain ⟨issue, hmem, hissue⟩ := videoStep_nullIssue deps index scene0 st0 hv hnull
        obtain ⟨⟨ext, hext⟩, _⟩ := videoLoop_ok_state rest (index + 1) _ h
        exact ⟨issue, by rw [hext]; exact List.mem_append_left _ hmem, hissue⟩
      | succ j =>
        simp only [List.getElem?_cons_succ] at hj
        have harith : index + 1 + j = index + (j + 1) := by omega
        exact ih (index + 1) _ h j scene v hj (by rw [harith]; exact hv) hnull

theorem videoLoop_ok_updatesOK {bound : Nat} {options : GenerationPipelineOptions}
    {deps : GenerationPipelineDependencies} :
    ∀ (scenes : List Scene) (index : Nat) (acc : List Scene) {st : PipeSt}
      {out : List Scene} {st' : PipeSt},
      videoLoop options deps scenes index acc st = Except.ok (out, st') →
      updatesOK bound st → updatesOK bound st' := by
  intro scenes
  induction scenes with
  | nil =>
    intro index acc st out st' h hOK
    simp only [videoLoop] at h
    cases h
    exact hOK
  | cons scene rest ih =>
    intro index acc st out st' h hOK
    simp only [videoLoop] at h
    cases hcc : checkCancelled options st with
    | error stHalt => rw [hcc] at h; simp at h
    | ok st0 =>
      rw [hcc] at h
      dsimp only at h
      exact ih (index + 1) _ h
        (videoStep_updatesOK deps index scene (checkCancelled_ok_updatesOK hcc hOK))

theorem videoLoop_err_updatesOK {bound : Nat} {options : GenerationPipelineOptions}
    {deps : GenerationPipelineDependencies} :
    ∀ (scenes : List Scene) (index : Nat) (acc : List Scene) {st : PipeSt} {st' : PipeSt},
      videoLoop options deps scenes index acc st = Except.error st' →
      updatesOK bound st → updatesOK bound st' := by
  intro scenes
  induction scenes with
  | nil =>
    intro index acc st st' h hOK
    simp only [videoLoop] at h
    cases h
  | cons scene rest ih =>
    intro index acc st st' h hOK
    simp only [videoLoop] at h
    cases hcc : checkCancelled options st with
    | error stHalt =>
      rw [hcc] at h
      simp only at h
      cases h
      exact checkCancelled_err_updatesOK hcc hOK
    | ok st0 =>
      rw [hcc] at h
      dsimp only at h
      exact ih (index + 1) _ h
        (videoStep_updatesOK deps index scene (checkCancelled_ok_updatesOK hcc hOK))

theorem videoLoop_noCancel_ok {options : GenerationPipelineOptions}
    {deps : GenerationPipelineDependencies} (hnc : noCancel options) :
    ∀ (scenes : List Scene) (index : Nat) (acc : List Scene) (st : PipeSt),
      ∃ out st', videoLoop options deps scenes index acc st = Except.ok (out, st') := by
  intro scenes
  induction scenes with
  | nil => intro index acc st; exact ⟨acc, st, rfl⟩
  | cons scene rest ih =>
    intro index acc st
    obtain ⟨st0, hcc, -, -, -, -⟩ := checkCancelled_noCancel hnc st
    obtain ⟨out, st', h⟩ := ih (index + 1) (acc ++ [(videoStep deps index scene st0).1])
      ((videoStep deps index scene st0).2)
    refine ⟨out, st', ?_⟩
    simp only [videoLoop]
    rw [hcc]
    exact h

theorem orUndefined_eq_none_iff (url : Option String) :
    orUndefined url = none ↔ truthyOptStr url = false := by
  cases url with
  | none => simp [orUndefined, truthyOptStr]
  | some s =>
    by_cases hs : s.isEmpty <;> simp [orUndefined, truthyOptStr, truthyStr, hs]

theorem voiceoverStage_state (deps : GenerationPipelineDependencies) (st : PipeSt) :
    (voiceoverStage deps st).2.projectState = st.projectState ∧
      (voiceoverStage deps st).2.initCalls = st.initCalls ∧
      (voiceoverStage deps st).2.updates = st.updates ∧
      ∃ ext, (voiceoverStage deps st).2.issues = st.issues ++ ext := by
  unfold voiceoverStage
  cases hvo : deps.generateVoiceover with
  | ok value =>
    dsimp only
    by_cases hn : orUndefined (normalizeAssetResult value).url = none
    · rw [if_pos hn]
      exact ⟨rfl, rfl, rfl, _, rfl⟩
    · rw [if_neg hn]
      exact ⟨rfl, rfl, rfl, [], by simp⟩
  | error e =>
    exact ⟨rfl, rfl, rfl, _, rfl⟩

theorem voiceoverStage_nullIssue (deps : GenerationPipelineDependencies) (st : PipeSt)
    {v : JsValue} (hvo : deps.generateVoiceover = Except.ok v)
    (hnull : truthyOptStr (normalizeAssetResult v).url = false) :
    ∃ issue ∈ (voiceoverStage deps st).2.issues,
      issue.stage = PipelinePhase.voiceover ∧ issue.sceneId = none ∧
        issue.recoverable = true := by
  unfold voiceoverStage
  rw [hvo]
  dsimp only
  rw [if_pos ((orUndefined_eq_none_iff _).2 hnull)]
  exact ⟨_, List.mem_append_right _ (List.mem_singleton_self _), rfl, rfl, rfl⟩

theorem musicStage_state (deps : GenerationPipelineDependencies) (st : PipeSt) :
    (musicStage deps st).2.projectState = st.projectState ∧
      (musicStage deps st).2.initCalls = st.initCalls ∧
      (musicStage deps st).2.updates = st.updates ∧
      ∃ ext, (musicStage deps st).2.issues = st.issues ++ ext := by
  unfold musicStage
  cases hmu : deps.generateMusic with
  | ok value =>
    dsimp only
    by_cases hn : orUndefined (normalizeAssetResult value).url = none
    · rw [if_pos hn]
      exact ⟨rfl, rfl, rfl, _, rfl⟩
    · rw [if_neg hn]
      by_cases hf : (normalizeAssetResult value).fallbackUsed = true
      · rw [if_pos hf]
        exact ⟨rfl, rfl, rfl, _, rfl⟩
      · rw [if_neg hf]
        exact ⟨rfl, rfl, rfl, [], by simp⟩
  | error e =>
    exact ⟨rfl, rfl, rfl, _, rfl⟩

theorem musicStage_nullIssue (deps : GenerationPipelineDependencies) (st : PipeSt)
    {v : JsValue} (hmu : deps.generateMusic = Except.ok v)
    (hnull : truthyOptStr (normalizeAssetResult v).url = false) :
    ∃ issue ∈ (musicStage deps st).2.issues,
      issue.stage = PipelinePhase.scoring ∧ issue.sceneId = none ∧
        issue.recoverable = true := by
  unfold musicStage
  rw [hmu]
  dsimp only
  rw [if_pos ((orUndefined_eq_none_iff _).2 hnull)]
  exact ⟨_, List.mem_append_right _ (List.mem_singleton_self _), rfl, rfl, rfl⟩

theorem voiceoverStage_updatesOK {bound : Nat} {deps : GenerationPipelineDependencies}
    {st : PipeSt} (hOK : updatesOK bound st) :
    updatesOK bound ((voiceoverStage deps st).2) := by
  obtain ⟨hps, _, hupd, _⟩ := voiceoverStage_state deps st
  obtain ⟨hpw, hbound, hproj⟩ := hOK
  refine ⟨?_, ?_, ?_⟩
  · rw [hupd]; exact hpw
  · intro u hu; rw [hupd] at hu; exact hbound u hu
  · intro proj hp; rw [hps] at hp; exact hproj proj hp

theorem musicStage_updatesOK {bound : Nat} {deps : GenerationPipelineDependencies}
    {st : PipeSt} (hOK : updatesOK bound st) :
    updatesOK bound ((musicStage deps st).2) := by
  obtain ⟨hps, _, hupd, _⟩ := musicStage_state deps st
  obtain ⟨hpw, hbound, hproj⟩ := hOK
  refine ⟨?_, ?_, ?_⟩
  · rw [hupd]; exact hpw
  · intro u hu; rw [hupd] at hu; exact hbound u hu
  · intro proj hp; rw [hps] at hp; exact hproj proj hp

theorem storyboardSceneResult_id (deps : GenerationPipelineDependencies) (index : Nat)
    (scene : Scene) : (storyboardSceneResult deps index scene).id = scene.id := by
  unfold storyboardSceneResult
  cases hsb : deps.generateStoryboardImage index <;> rfl

theorem pipelineFinish_ok_spec {plan : AdPlan} {videoScenes : List Scene}
    {voiceoverUrl musicUrl : Option String} {st : PipeSt} {r : GenerationPipelineRunResult}
    (h : (pipelineFinish plan videoScenes voiceoverUrl musicUrl st).result = Except.ok r) :
    r.plan = plan ∧ r.project.currentPhase = PipelinePhase.ready ∧
      r.project.isGenerating = false ∧ r.project.scenes = videoScenes ∧
      r.scenes = videoScenes ∧ r.issues = st.issues := by
  unfold pipelineFinish at h
  cases hps : st.projectState with
  | none => rw [hps] at h; cases h
  | some proj =>
    rw [hps] at h
    dsimp only [mkRun] at h
    cases h
    exact ⟨rfl, rfl, rfl, rfl, rfl, rfl⟩

theorem scoringCore_ok_spec {deps : GenerationPipelineDependencies} {plan : AdPlan}
    {videoScenes : List Scene} {voiceoverUrl : Option String} {st1 : PipeSt}
    {r : GenerationPipelineRunResult}
    (h : (pipelineFinish plan videoScenes voiceoverUrl
        (musicStage deps st1).1 (musicStage deps st1).2).result = Except.ok r) :
    r.plan = plan ∧ r.project.currentPhase = PipelinePhase.ready ∧
      r.project.isGenerating = false ∧ r.project.scenes = videoScenes ∧
      r.scenes = videoScenes ∧ (∃ ext, r.issues = st1.issues ++ ext) ∧
      (∀ v, deps.generateMusic = Except.ok v →
        truthyOptStr (normalizeAssetResult v).url = false →
        ∃ issue ∈ r.issues, issue.stage = PipelinePhase.scoring ∧ issue.sceneId = none ∧
          issue.recoverable = true) := by
  obtain ⟨hplan, hphase, hgen, hscenes, hrs, hiss⟩ := pipelineFinish_ok_spec h
  obtain ⟨-, -, -, ext, hext⟩ := musicStage_state deps st1
  refine ⟨hplan, hphase, hgen, hscenes, hrs, ⟨ext, by rw [hiss, hext]⟩, ?_⟩
  intro v hv hnull
  obtain ⟨issue, hmem, hi⟩ := musicStage_nullIssue deps st1 hv hnull
  exact ⟨issue, by rw [hiss]; exact hmem, hi⟩

theorem pipelineScoring_ok_spec {options : GenerationPipelineOptions}
    {deps : GenerationPipelineDependencies} {plan : AdPlan} {videoScenes : List Scene}
    {voiceoverUrl : Option String} {st : PipeSt} {r : GenerationPipelineRunResult}
    (h : (pipelineScoring options deps plan videoScenes voiceoverUrl st).result = Except.ok r) :
    r.plan = plan ∧ r.project.currentPhase = PipelinePhase.ready ∧
      r.project.isGenerating = false ∧ r.project.scenes = videoScenes ∧
      r.scenes = videoScenes ∧ (∃ ext, r.issues = st.issues ++ ext) ∧
      (∀ v, deps.generateMusic = Except.ok v →
        truthyOptStr (normalizeAssetResult v).url = false →
        ∃ issue ∈ r.issues, issue.stage = PipelinePhase.scoring ∧ issue.sceneId = none ∧
          issue.recoverable = true) := by
  unfold pipelineScoring at h
  cases hcc : checkCancelled options st with
  | error stHalt => rw [hcc] at h; simp [mkRun] at h
  | ok st0 =>
    rw [hcc] at h
    dsimp only at h
    obtain ⟨-, -, -, hiss0⟩ := checkCancelled_ok_fields hcc
    cases hps : st0.projectState with
    | none =>
      rw [hps] at h
      dsimp only at h
      obtain ⟨hplan, hphase, hgen, hscenes, hrs, ⟨ext, hext⟩, hmusic⟩ := scoringCore_ok_spec h
      exact ⟨hplan, hphase, hgen, hscenes, hrs, ⟨ext, by rw [hext, hiss0]⟩, hmusic⟩
    | some proj =>
      rw [hps] at h
      dsimp only at h
      obtain ⟨hplan, hphase, hgen, hscenes, hrs, ⟨ext, hext⟩, hmusic⟩ := scoringCore_ok_spec h
      refine ⟨hplan, hphase, hgen, hscenes, hrs, ⟨ext, ?_⟩, hmusic⟩
      rw [hext, updateProject_issues, hiss0]

theorem pipelineVoiceover_ok_spec {options : GenerationPipelineOptions}
    {deps : GenerationPipelineDependencies} {plan : AdPlan} {videoScenes : List Scene}
    {st : PipeSt} {r : GenerationPipelineRunResult}
    (h : (pipelineVoiceover options deps plan videoScenes st).result = Except.ok r) :
    r.plan = plan ∧ r.project.currentPhase = PipelinePhase.ready ∧
      r.project.isGenerating = false ∧ r.project.scenes = videoScenes ∧
      r.scenes = videoScenes ∧ (∃ ext, r.issues = st.issues ++ ext) ∧
      (∀ v, deps.generateMusic = Except.ok v →
        truthyOptStr (normalizeAssetResult v).url = false →
        ∃ issue ∈ r.issues, issue.stage = PipelinePhase.scoring ∧ issue.sceneId = none ∧
          issue.recoverable = true) ∧
      (∀ v, deps.generateVoiceover = Except.ok v →
        truthyOptStr (normalizeAssetResult v).url = false →
        ∃ issue ∈ r.issues, issue.stage = PipelinePhase.voiceover ∧ issue.sceneId = none ∧
          issue.recoverable = true) := by
  unfold pipelineVoiceover at h
  cases hcc : checkCancelled options st with
  | error stHalt => rw [hcc] at h; simp [mkRun] at h
  | ok st0 =>
    rw [hcc] at h
    dsimp only at h
    obtain ⟨-, -, -, hiss0⟩ := checkCancelled_ok_fields hcc
    cases hps : st0.projectState with
    | none =>
      rw [hps] at h
      dsimp only at h
      obtain ⟨hplan, hphase, hgen, hscenes, hrs, ⟨ext2, hext2⟩, hmusic⟩ :=
        pipelineScoring_ok_spec h
      obtain ⟨-, -, -, ext1, hext1⟩ := voiceoverStage_state deps st0
      refine ⟨hplan, hphase, hgen, hscenes, hrs,
        ⟨ext1 ++ ext2, by rw [hext2, hext1, hiss0, List.append_assoc]⟩, hmusic, ?_⟩
      intro v hv hnull
      obtain ⟨issue, hmem, hi⟩ := voiceoverStage_nullIssue deps st0 hv hnull
      exact ⟨issue, by rw [hext2]; exact List.mem_append_left _ hmem, hi⟩
    | some proj =>
      rw [hps] at h
      dsimp only at h
      obtain ⟨hplan, hphase, hgen, hscenes, hrs, ⟨ext2, hext2⟩, hmusic⟩ :=
        pipelineScoring_ok_spec h
      obtain ⟨-, -, -, ext1, hext1⟩ :=
        voiceoverStage_state deps
          (updateProject st0 { proj with currentPhase := PipelinePhase.voiceover, scenes := videoScenes })
      refine ⟨hplan, hphase, hgen, hscenes, hrs,
        ⟨ext1 ++ ext2, by
          rw [hext2, hext1, updateProject_issues, hiss0, List.append_assoc]⟩, hmusic, ?_⟩
      intro v hv hnull
      obtain ⟨issue, hmem, hi⟩ :=
        voiceoverStage_nullIssue deps
          (updateProject st0 { proj with currentPhase := PipelinePhase.voiceover, scenes := videoScenes })
          hv hnull
      exact ⟨issue, by rw [hext2]; exact List.mem_append_left _ hmem, hi⟩

theorem pipelineVideo_ok_spec {options : GenerationPipelineOptions}
    {deps : GenerationPipelineDependencies} {plan : AdPlan} {storyboardedScenes : List Scene}
    {st : PipeSt} {r : GenerationPipelineRunResult}
    (h : (pipelineVideo options deps plan storyboardedScenes st).result = Except.ok r) :
    r.plan = plan ∧ r.project.currentPhase = PipelinePhase.ready ∧
      r.project.isGenerating = false ∧
      r.project.scenes = mapIdxFrom (videoSceneResult deps) 0 storyboardedScenes ∧
      r.scenes = r.project.scenes ∧ (∃ ext, r.issues = st.issues ++ ext) ∧
      (∀ v, deps.generateMusic = Except.ok v →
        truthyOptStr (normalizeAssetResult v).url = false →
        ∃ issue ∈ r.issues, issue.stage = PipelinePhase.scoring ∧ issue.sceneId = none ∧
          issue.recoverable = true) ∧
      (∀ v, deps.generateVoiceover = Except.ok v →
        truthyOptStr (normalizeAssetResult v).url = false →
        ∃ issue ∈ r.issues, issue.stage = PipelinePhase.voiceover ∧ issue.sceneId = none ∧
          issue.recoverable = true) ∧
      (∀ (j : Nat) (scene : Scene) (v : JsValue), storyboardedScenes[j]? = some scene →
        deps.generateVideoClip j = Except.ok v →
        truthyOptStr (normalizeAssetResult v).url = false →
        ∃ issue ∈ r.issues, issue.stage = PipelinePhase.video_production ∧
          issue.sceneId = some scene.id ∧ issue.recoverable = true) := by
  unfold pipelineVideo at h
  cases hcc : checkCancelled options st with
  | error stHalt => rw [hcc] at h; simp [mkRun] at h
  | ok st0 =>
    rw [hcc] at h
    dsimp only at h
    obtain ⟨-, -, -, hiss0⟩ := checkCancelled_ok_fields hcc
    cases hps : st0.projectState with
    | none =>
      rw [hps] at h
      dsimp only at h
      cases hvl : videoLoop options deps storyboardedScenes 0 [] st0 with
      | error stHalt => rw [hvl] at h; simp [mkRun] at h
      | ok pair =>
        obtain ⟨videoScenes, st2⟩ := pair
        rw [hvl] at h
        dsimp only at h
        obtain ⟨hplan, hphase, hgen, hscenes, hrs, ⟨ext3, hext3⟩, hmusic, hvo⟩ :=
          pipelineVoiceover_ok_spec h
        have hvs : videoScenes = mapIdxFrom (videoSceneResult deps) 0 storyboardedScenes := by
          have := videoLoop_ok_scenes storyboardedScenes 0 [] hvl
          simpa using this
        obtain ⟨⟨ext2, hext2⟩, -⟩ := videoLoop_ok_state storyboardedScenes 0 [] hvl
        refine ⟨hplan, hphase, hgen, by rw [hscenes, hvs], by rw [hrs, hscenes], ?_, hmusic, hvo, ?_⟩
        · exact ⟨ext2 ++ ext3, by rw [hext3, hext2, hiss0, List.append_assoc]⟩
        · intro j scene v hj hv hnull
          obtain ⟨issue, hmem, hi⟩ :=
            videoLoop_ok_nullIssue storyboardedScenes 0 [] hvl j scene v hj
              (by rw [Nat.zero_add]; exact hv) hnull
          exact ⟨issue, by rw [hext3]; exact List.mem_append_left _ hmem, hi⟩
    | some proj =>
      rw [hps] at h
      dsimp only at h
      cases hvl : videoLoop options deps storyboardedScenes 0 []
          (updateProject st0
            { proj with currentPhase := PipelinePhase.video_production, scenes := storyboardedScenes }) with
      | error stHalt => rw [hvl] at h; simp [mkRun] at h
      | ok pair =>
        obtain ⟨videoScenes, st2⟩ := pair
        rw [hvl] at h
        dsimp only at h
        obtain ⟨hplan, hphase, hgen, hscenes, hrs, ⟨ext3, hext3⟩, hmusic, hvo⟩ :=
          pipelineVoiceover_ok_spec h
        have hvs : videoScenes = mapIdxFrom (videoSceneResult deps) 0 storyboardedScenes := by
          have := videoLoop_ok_scenes storyboardedScenes 0 [] hvl
          simpa using this
        obtain ⟨⟨ext2, hext2⟩, -⟩ := videoLoop_ok_state storyboardedScenes 0 [] hvl
        refine ⟨hplan, hphase, hgen, by rw [hscenes, hvs], by rw [hrs, hscenes], ?_, hmusic, hvo, ?_⟩
        · exact ⟨ext2 ++ ext3, by
            rw [hext3, hext2, updateProject_issues, hiss0, List.append_assoc]⟩
        · intro j scene v hj hv hnull
          obtain ⟨issue, hmem, hi⟩ :=
            videoLoop_ok_nullIssue storyboardedScenes 0 [] hvl j scene v hj
              (by rw [Nat.zero_add]; exact hv) hnull
          exact ⟨issue, by rw [hext3]; exact List.mem_append_left _ hmem, hi⟩

theorem pipelineStoryboard_ok_spec {options : GenerationPipelineOptions}
    {deps : GenerationPipelineDependencies} {plan : AdPlan} {st : PipeSt}
    {r : GenerationPipelineRunResult}
    (h : (pipelineStoryboard options deps plan st).result = Except.ok r) :
    r.plan = plan ∧ r.project.currentPhase = PipelinePhase.ready ∧
      r.project.isGenerating = false ∧
      r.project.scenes = pipelineFinalScenes deps plan ∧
      r.scenes = r.project.scenes ∧ (∃ ext, r.issues = st.issues ++ ext) ∧
      (∀ v, deps.generateMusic = Except.ok v →
        truthyOptStr (normalizeAssetResult v).url = false →
        ∃ issue ∈ r.issues, issue.stage = PipelinePhase.scoring ∧ issue.sceneId = none ∧
          issue.recoverable = true) ∧
      (∀ v, deps.generateVoiceover = Except.ok v →
        truthyOptStr (normalizeAssetResult v).url = false →
        ∃ issue ∈ r.issues, issue.stage = PipelinePhase.voiceover ∧ issue.sceneId = none ∧
          issue.recoverable = true) ∧
      (∀ (j : Nat) (scene : Scene) (v : JsValue),
        ((plan.scenes.getD []).map initScene)[j]? = some scene →
        deps.generateVideoClip j = Except.ok v →
        truthyOptStr (normalizeAssetResult v).url = false →
        ∃ issue ∈ r.issues, issue.stage = PipelinePhase.video_production ∧
          issue.sceneId = some scene.id ∧ issue.recoverable = true) ∧
      (∀ (j : Nat) (scene : Scene) (v : JsValue),
        ((plan.scenes.getD []).map initScene)[j]? = some scene →
        deps.generateStoryboardImage j = Except.ok v →
        truthyOptStr (normalizeAssetResult v).url = false →
        ∃ issue ∈ r.issues, issue.stage = PipelinePhase.storyboarding ∧
          issue.sceneId = some scene.id ∧ issue.recoverable = true) := by
  unfold pipelineStoryboard at h
  dsimp only at h
  cases hsl : storyboardLoop options deps ((plan.scenes.getD []).map initScene) 0 []
      { st with
        projectState := some (initialProjectOf options plan)
        initCalls := st.initCalls ++ [initialProjectOf options plan] } with
  | error stHalt =>
    rw [show (initialProjectOf options plan).scenes = (plan.scenes.getD []).map initScene from rfl] at h
    rw [hsl] at h
    simp [mkRun] at h
  | ok pair =>
    obtain ⟨storyboardedScenes, st1⟩ := pair
    rw [show (initialProjectOf options plan).scenes = (plan.scenes.getD []).map initScene from rfl] at h
    rw [hsl] at h
    dsimp only at h
    obtain ⟨hplan, hphase, hgen, hscenes, hrs, ⟨ext2, hext2⟩, hmusic, hvo, hvideo⟩ :=
      pipelineVideo_ok_spec h
    have hss : storyboardedScenes =
        mapIdxFrom (storyboardSceneResult deps) 0 ((plan.scenes.getD []).map initScene) := by
      have := storyboardLoop_ok_scenes ((plan.scenes.getD []).map initScene) 0 [] hsl
      simpa using this
    obtain ⟨⟨ext1, hext1⟩, -⟩ :=
      storyboardLoop_ok_state ((plan.scenes.getD []).map initScene) 0 [] hsl
    refine ⟨hplan, hphase, hgen, ?_, hrs, ?_, hmusic, hvo, ?_, ?_⟩
    · rw [hscenes, hss]
      rfl
    · exact ⟨ext1 ++ ext2, by
        rw [hext2, hext1, List.append_assoc]⟩
    · intro j scene v hj hv hnull
      have hj' : storyboardedScenes[j]? = some (storyboardSceneResult deps j scene) := by
        rw [hss, mapIdxFrom_getElem?, Nat.zero_add, hj]
        rfl
      obtain ⟨issue, hmem, hstage, hsid, hrec⟩ :=
        hvideo j (storyboardSceneResult deps j scene) v hj' hv hnull
      exact ⟨issue, hmem, hstage, by rw [hsid, storyboardSceneResult_id], hrec⟩
    · intro j scene v hj hsb hnull
      obtain ⟨issue, hmem, hi⟩ :=
        storyboardLoop_ok_nullIssue ((plan.scenes.getD []).map initScene) 0 [] hsl j scene v hj
          (by rw [Nat.zero_add]; exact hsb) hnull
      exact ⟨issue, by rw [hext2]; exact List.mem_append_left _ hmem, hi⟩

theorem run_ok_spec {options : GenerationPipelineOptions}
    {deps : GenerationPipelineDependencies} {r : GenerationPipelineRunResult}
    (h : (runGenerationPipeline options deps).result = Except.ok r) :
    deps.generateAdPlan = Except.ok r.plan ∧
      r.project.currentPhase = PipelinePhase.ready ∧
      r.project.isGenerating = false ∧
      r.project.scenes = pipelineFinalScenes deps r.plan ∧
      r.scenes = r.project.scenes ∧
      (∀ v, deps.generateMusic = Except.ok v →
        truthyOptStr (normalizeAssetResult v).url = false →
        ∃ issue ∈ r.issues, issue.stage = PipelinePhase.scoring ∧ issue.sceneId = none ∧
          issue.recoverable = true) ∧
      (∀ v, deps.generateVoiceover = Except.ok v →
        truthyOptStr (normalizeAssetResult v).url = false →
        ∃ issue ∈ r.issues, issue.stage = PipelinePhase.voiceover ∧ issue.sceneId = none ∧
          issue.recoverable = true) ∧
      (∀ (j : Nat) (scene : Scene) (v : JsValue),
        ((r.plan.scenes.getD []).map initScene)[j]? = some scene →
        deps.generateVideoClip j = Except.ok v →
        truthyOptStr (normalizeAssetResult v).url = false →
        ∃ issue ∈ r.issues, issue.stage = PipelinePhase.video_production ∧
          issue.sceneId = some scene.id ∧ issue.recoverable = true) ∧
      (∀ (j : Nat) (scene : Scene) (v : JsValue),
        ((r.plan.scenes.getD []).map initScene)[j]? = some scene →
        deps.generateStoryboardImage j = Except.ok v →
        truthyOptStr (normalizeAssetResult v).url = false →
        ∃ issue ∈ r.issues, issue.stage = PipelinePhase.storyboarding ∧
          issue.sceneId = some scene.id ∧ issue.recoverable = true) := by
  unfold runGenerationPipeline at h
  dsimp only at h
  cases hcc0 : checkCancelled options
      { projectState := none, initCalls := [], updates := [], issues := [], cancelSamples := 0 } with
  | error stHalt => rw [hcc0] at h; simp [mkRun] at h
  | ok st1 =>
    rw [hcc0] at h
    dsimp only at h
    cases hplan : deps.generateAdPlan with
    | error e => rw [hplan] at h; simp [mkRun] at h
    | ok plan =>
      rw [hplan] at h
      dsimp only at h
      cases hcc1 : checkCancelled options st1 with
      | error stHalt => rw [hcc1] at h; simp [mkRun] at h
      | ok st2 =>
        rw [hcc1] at h
        dsimp only at h
        obtain ⟨hplanEq, hphase, hgen, hscenes, hrs, -, hmusic, hvo, hvideo, hsb⟩ :=
          pipelineStoryboard_ok_spec h
        subst hplanEq
        exact ⟨rfl, hphase, hgen, hscenes, hrs, hmusic, hvo, hvideo, hsb⟩

theorem pipelineScoring_noCancel_ok {options : GenerationPipelineOptions}
    {deps : GenerationPipelineDependencies} (hnc : noCancel options) (plan : AdPlan)
    (videoScenes : List Scene) (voiceoverUrl : Option String) (st : PipeSt)
    (hsome : st.projectState.isSome = true) :
    ∃ r, (pipelineScoring options deps plan videoScenes voiceoverUrl st).result =
      Except.ok r := by
  unfold pipelineScoring
  obtain ⟨st0, hcc, hps0, -, -, -⟩ := checkCancelled_noCancel hnc st
  rw [hcc]
  dsimp only
  cases hps : st0.projectState with
  | none =>
    rw [hps0] at hps
    rw [hps] at hsome
    cases hsome
  | some proj =>
    dsimp only
    unfold pipelineFinish
    rw [(musicStage_state deps _).1, updateProject_projectState]
    dsimp only [mkRun]
    exact ⟨_, rfl⟩

theorem pipelineVoiceover_noCancel_ok {options : GenerationPipelineOptions}
    {deps : GenerationPipelineDependencies} (hnc : noCancel options) (plan : AdPlan)
    (videoScenes : List Scene) (st : PipeSt) (hsome : st.projectState.isSome = true) :
    ∃ r, (pipelineVoiceover options deps plan videoScenes st).result = Except.ok r := by
  unfold pipelineVoiceover
  obtain ⟨st0, hcc, hps0, -, -, -⟩ := checkCancelled_noCancel hnc st
  rw [hcc]
  dsimp only
  cases hps : st0.projectState with
  | none =>
    rw [hps0] at hps
    rw [hps] at hsome
    cases hsome
  | some proj =>
    dsimp only
    refine pipelineScoring_noCancel_ok hnc plan videoScenes _ _ ?_
    rw [(voiceoverStage_state deps _).1, updateProject_projectState]
    rfl

theorem pipelineVideo_noCancel_ok {options : GenerationPipelineOptions}
    {deps : GenerationPipelineDependencies} (hnc : noCancel options) (plan : AdPlan)
    (storyboardedScenes : List Scene) (st : PipeSt) (hsome : st.projectState.isSome = true) :
    ∃ r, (pipelineVideo options deps plan storyboardedScenes st).result = Except.ok r := by
  unfold pipelineVideo
  obtain ⟨st0, hcc, hps0, -, -, -⟩ := checkCancelled_noCancel hnc st
  rw [hcc]
  dsimp only
  cases hps : st0.projectState with
  | none =>
    rw [hps0] at hps
    rw [hps] at hsome
    cases hsome
  | some proj =>
    dsimp only
    obtain ⟨out, st2, hvl⟩ := videoLoop_noCancel_ok hnc storyboardedScenes 0 [] _
    rw [hvl]
    dsimp only
    refine pipelineVoiceover_noCancel_ok hnc plan out st2 ?_
    exact (videoLoop_ok_state storyboardedScenes 0 [] hvl).2 (by rw [updateProject_projectState]; rfl)

theorem pipelineStoryboard_noCancel_ok {options : GenerationPipelineOptions}
    {deps : GenerationPipelineDependencies} (hnc : noCancel options) (plan : AdPlan)
    (st : PipeSt) :
    ∃ r, (pipelineStoryboard options deps plan st).result = Except.ok r := by
  unfold pipelineStoryboard
  dsimp only
  obtain ⟨out, st1, hsl⟩ := storyboardLoop_noCancel_ok hnc (initialProjectOf options plan).scenes 0 []
    { st with
      projectState := some (initialProjectOf options plan)
      initCalls := st.initCalls ++ [initialProjectOf options plan] }
  rw [hsl]
  dsimp only
  refine pipelineVideo_noCancel_ok hnc plan out st1 ?_
  exact (storyboardLoop_ok_state (initialProjectOf options plan).scenes 0 [] hsl).2 rfl

theorem run_noCancel_ok {options : GenerationPipelineOptions}
    {deps : GenerationPipelineDependencies} {plan : AdPlan} (hnc : noCancel options)
    (hplan : deps.generateAdPlan = Except.ok plan) :
    ∃ r, (runGenerationPipeline options deps).result = Except.ok r := by
  unfold runGenerationPipeline
  dsimp only
  obtain ⟨st1, hcc0, -, -, -, -⟩ := checkCancelled_noCancel hnc _
  rw [hcc0]
  dsimp only
  rw [hplan]
  dsimp only
  obtain ⟨st2, hcc1, -, -, -, -⟩ := checkCancelled_noCancel hnc st1
  rw [hcc1]
  dsimp only
  exact pipelineStoryboard_noCancel_ok hnc plan st2

theorem updatesOK_mono_none {bound bound' : Nat} {st : PipeSt} (hOK : updatesOK bound st)
    (hps : st.projectState = none) (hle : bound ≤ bound') : updatesOK bound' st := by
  obtain ⟨hpw, hbound, -⟩ := hOK
  refine ⟨hpw, fun u hu => le_trans (hbound u hu) hle, ?_⟩
  intro proj hp
  rw [hps] at hp
  cases hp

theorem updateProject_raise_updatesOK {bound newBound : Nat} {st : PipeSt}
    (hOK : updatesOK bound st) {next : AdProject}
    (hphase : phaseNat next.currentPhase = newBound) (hle : bound ≤ newBound) :
    updatesOK newBound (updateProject st next) := by
  obtain ⟨hpw, hbound, -⟩ := hOK
  refine ⟨?_, ?_, ?_⟩
  · rw [updateProject_updates, List.pairwise_append]
    refine ⟨hpw, List.pairwise_singleton _ _, ?_⟩
    intro a ha c hc'
    rw [List.mem_singleton] at hc'
    rw [hc']
    show phaseNat a.currentPhase ≤ phaseNat next.currentPhase
    rw [hphase]
    exact le_trans (hbound a ha) hle
  · intro u hu
    rw [updateProject_updates] at hu
    rcases List.mem_append.1 hu with h' | h'
    · exact le_trans (hbound u h') hle
    · rw [List.mem_singleton] at h'
      rw [h']
      rw [hphase]
  · intro p hp
    rw [updateProject_projectState] at hp
    cases hp
    exact hphase

theorem pipelineFinish_updates {bound : Nat} {plan : AdPlan} {videoScenes : List Scene}
    {voiceoverUrl musicUrl : Option String} {st : PipeSt} (hOK : updatesOK bound st)
    (hb : bound ≤ 6) :
    (pipelineFinish plan videoScenes voiceoverUrl musicUrl st).trace.updates.Pairwise phasesLE := by
  unfold pipelineFinish
  cases hps : st.projectState with
  | none => exact hOK.1
  | some proj =>
    dsimp only [mkRun]
    have h1 : updatesOK 6 (updateProject st
        { proj with
            currentPhase := PipelinePhase.ready
            isGenerating := false
            scenes := videoScenes
            voiceoverUrl := voiceoverUrl
            musicUrl := musicUrl }) :=
      updateProject_raise_updatesOK hOK rfl hb
    exact h1.1

theorem pipelineScoring_updates {bound : Nat} {options : GenerationPipelineOptions}
    {deps : GenerationPipelineDependencies} {plan : AdPlan} {videoScenes : List Scene}
    {voiceoverUrl : Option String} {st : PipeSt} (hOK : updatesOK bound st) (hb : bound ≤ 4) :
    (pipelineScoring options deps plan videoScenes voiceoverUrl st).trace.updates.Pairwise
      phasesLE := by
  unfold pipelineScoring
  cases hcc : checkCancelled options st with
  | error stHalt => exact (checkCancelled_err_updatesOK hcc hOK).1
  | ok st0 =>
    dsimp only
    have h0 := checkCancelled_ok_updatesOK hcc hOK
    cases hps : st0.projectState with
    | none =>
      dsimp only
      exact pipelineFinish_updates
        (musicStage_updatesOK (updatesOK_mono_none h0 hps (le_refl _))) (le_trans hb (by omega))
    | some proj =>
      dsimp only
      have h1 : updatesOK 4 (updateProject st0
          { proj with currentPhase := PipelinePhase.scoring, voiceoverUrl := voiceoverUrl }) :=
        updateProject_raise_updatesOK h0 rfl hb
      exact pipelineFinish_updates (musicStage_updatesOK h1) (by omega)

theorem pipelineVoiceover_updates {bound : Nat} {options : GenerationPipelineOptions}
    {deps : GenerationPipelineDependencies} {plan : AdPlan} {videoScenes : List Scene}
    {st : PipeSt} (hOK : updatesOK bound st) (hb : bound ≤ 3) :
    (pipelineVoiceover options deps plan videoScenes st).trace.updates.Pairwise phasesLE := by
  unfold pipelineVoiceover
  cases hcc : checkCancelled options st with
  | error stHalt => exact (checkCancelled_err_updatesOK hcc hOK).1
  | ok st0 =>
    dsimp only
    have h0 := checkCancelled_ok_updatesOK hcc hOK
    cases hps : st0.projectState with
    | none =>
      dsimp only
      exact pipelineScoring_updates
        (voiceoverStage_updatesOK (updatesOK_mono_none h0 hps (le_refl _)))
        (le_trans hb (by omega))
    | some proj =>
      dsimp only
      have h1 : updatesOK 3 (updateProject st0
          { proj with currentPhase := PipelinePhase.voiceover, scenes := videoScenes }) :=
        updateProject_raise_updatesOK h0 rfl hb
      exact pipelineScoring_updates (voiceoverStage_updatesOK h1) (by omega)

theorem pipelineVideo_updates {bound : Nat} {options : GenerationPipelineOptions}
    {deps : GenerationPipelineDependencies} {plan : AdPlan} {storyboardedScenes : List Scene}
    {st : PipeSt} (hOK : updatesOK bound st) (hb : bound ≤ 2) :
    (pipelineVideo options deps plan storyboardedScenes st).trace.updates.Pairwise phasesLE := by
  unfold pipelineVideo
  cases hcc : checkCancelled options st with
  | error stHalt => exact (checkCancelled_err_updatesOK hcc hOK).1
  | ok st0 =>
    dsimp only
    have h0 := checkCancelled_ok_updatesOK hcc hOK
    cases hps : st0.projectState with
    | none =>
      dsimp only
      have h1 := updatesOK_mono_none h0 hps (le_refl _)
      cases hvl : videoLoop options deps storyboardedScenes 0 [] st0 with
      | error stHalt => exact (videoLoop_err_updatesOK storyboardedScenes 0 [] hvl h1).1
      | ok pair =>
        obtain ⟨videoScenes, st2⟩ := pair
        dsimp only
        exact pipelineVoiceover_updates (videoLoop_ok_updatesOK storyboardedScenes 0 [] hvl h1)
          (le_trans hb (by omega))
    | some proj =>
      dsimp only
      have h1 : updatesOK 2 (updateProject st0
          { proj with currentPhase := PipelinePhase.video_production, scenes := storyboardedScenes }) :=
        updateProject_raise_updatesOK h0 rfl hb
      cases hvl : videoLoop options deps storyboardedScenes 0 []
          (updateProject st0
            { proj with currentPhase := PipelinePhase.video_production, scenes := storyboardedScenes }) with
      | error stHalt => exact (videoLoop_err_updatesOK storyboardedScenes 0 [] hvl h1).1
      | ok pair =>
        obtain ⟨videoScenes, st2⟩ := pair
        dsimp only
        exact pipelineVoiceover_updates (videoLoop_ok_updatesOK storyboardedScenes 0 [] hvl h1)
          (by omega)

theorem pipelineStoryboard_updates {options : GenerationPipelineOptions}
    {deps : GenerationPipelineDependencies} {plan : AdPlan} {st : PipeSt}
    (hupd : st.updates = []) :
    (pipelineStoryboard options deps plan st).trace.updates.Pairwise phasesLE := by
  unfold pipelineStoryboard
  dsimp only
  have h0 : updatesOK 1
      { st with
        projectState := some (initialProjectOf options plan)
        initCalls := st.initCalls ++ [initialProjectOf options plan] } := by
    refine ⟨?_, ?_, ?_⟩
    · show st.updates.Pairwise phasesLE
      rw [hupd]
      exact List.Pairwise.nil
    · intro u hu
      have hu' : u ∈ st.updates := hu
      rw [hupd] at hu'
      cases hu'
    · intro proj hp
      cases hp
      rfl
  cases hsl : storyboardLoop options deps (initialProjectOf options plan).scenes 0 []
      { st with
        projectState := some (initialProjectOf options plan)
        initCalls := st.initCalls ++ [initialProjectOf options plan] } with
  | error stHalt =>
    exact (storyboardLoop_err_updatesOK (initialProjectOf options plan).scenes 0 [] hsl h0).1
  | ok pair =>
    obtain ⟨storyboardedScenes, st1⟩ := pair
    exact pipelineVideo_updates
      (storyboardLoop_ok_updatesOK (initialProjectOf options plan).scenes 0 [] hsl h0)
      (by omega)

theorem videoSceneResult_id (deps : GenerationPipelineDependencies) (index : Nat)
    (scene : Scene) : (videoSceneResult deps index scene).id = scene.id := by
  unfold videoSceneResult
  cases hv : deps.generateVideoClip index <;> rfl

theorem videoSceneResult_storyboardUrl (deps : GenerationPipelineDependencies) (index : Nat)
    (scene : Scene) :
    (videoSceneResult deps index scene).storyboardUrl = scene.storyboardUrl := by
  unfold videoSceneResult
  cases hv : deps.generateVideoClip index <;> rfl

theorem videoSceneResult_status (deps : GenerationPipelineDependencies) (index : Nat)
    (scene : Scene) :
    (videoSceneResult deps index scene).status = SceneStatus.complete ∨
      (videoSceneResult deps index scene).status = SceneStatus.failed := by
  unfold videoSceneResult
  cases hv : deps.generateVideoClip index with
  | ok value =>
    dsimp only
    by_cases ht : truthyOptStr (normalizeAssetResult value).url = true
    · left
      simp [ht]
    · right
      simp [ht]
  | error e =>
    right
    rfl

theorem storyboardSceneResult_planFields (deps : GenerationPipelineDependencies) (index : Nat)
    (scene : Scene) :
    scenePlanFields (storyboardSceneResult deps index scene) = scenePlanFields scene := by
  unfold storyboardSceneResult
  cases hsb : deps.generateStoryboardImage index <;> rfl

theorem videoSceneResult_planFields (deps : GenerationPipelineDependencies) (index : Nat)
    (scene : Scene) :
    scenePlanFields (videoSceneResult deps index scene) = scenePlanFields scene := by
  unfold videoSceneResult
  cases hv : deps.generateVideoClip index <;> rfl

theorem initScene_planFields (p : PlanScene) :
    scenePlanFields (initScene p) = planSceneFields p := rfl

theorem orUndefined_empty : orUndefined (some ("")) = none := by decide

theorem truthyOptStr_empty : truthyOptStr (some ("")) = false := by decide

theorem storyboardSceneResult_emptyUrl (deps : GenerationPipelineDependencies) (index : Nat)
    (scene : Scene) {v : JsValue} (hsb : deps.generateStoryboardImage index = Except.ok v)
    (hurl : (normalizeAssetResult v).url = some ("")) :
    (storyboardSceneResult deps index scene).storyboardUrl = none := by
  unfold storyboardSceneResult
  rw [hsb]
  dsimp only
  rw [hurl]
  exact orUndefined_empty

theorem videoSceneResult_emptyUrl (deps : GenerationPipelineDependencies) (index : Nat)
    (scene : Scene) {v : JsValue} (hv : deps.generateVideoClip index = Except.ok v)
    (hurl : (normalizeAssetResult v).url = some ("")) :
    (videoSceneResult deps index scene).videoUrl = none ∧
      (videoSceneResult deps index scene).status = SceneStatus.failed := by
  unfold videoSceneResult
  rw [hv]
  dsimp only
  rw [hurl]
  exact ⟨orUndefined_empty, by rw [truthyOptStr_empty]; rfl⟩

theorem checkCancelled_false {options : GenerationPipelineOptions} {f : Nat → Bool}
    (hsc : options.shouldCancel = some f) (st : PipeSt) (hf : f st.cancelSamples = false) :
    checkCancelled options st = Except.ok { st with cancelSamples := st.cancelSamples + 1 } := by
  unfold checkCancelled
  rw [hsc]
  simp [hf]

theorem checkCancelled_true {options : GenerationPipelineOptions} {f : Nat → Bool}
    (hsc : options.shouldCancel = some f) (st : PipeSt) (hf : f st.cancelSamples = true) :
    checkCancelled options st = Except.error { st with cancelSamples := st.cancelSamples + 1 } := by
  unfold checkCancelled
  rw [hsc]
  simp [hf]

/-! ## Claim theorems -/

/-- C7: `normalizeAssetResult` always returns a record `{url, fallbackUsed,
diagnostics}`: a bare string input yields `{url: that string, fallbackUsed:
false, diagnostics: []}`; any input that is neither a string nor an object
(or is `null`) collapses to `{url: null, fallbackUsed: false, diagnostics:
[]}`; and for object inputs, missing or ill-typed fields default
defensively — a non-string `url` property is `none` in the `JsValue.obj`
encoding, `fallbackUsed` carries the JS `Boolean(...)` coercion, and a
non-array `diagnostics` property (`none`) becomes `[]` while an array is
normalized entrywise. -/
theorem C7_normalizeAssetResult_total :
    (∀ s, normalizeAssetResult (JsValue.str s) =
        { url := some s, fallbackUsed := false, diagnostics := [] }) ∧
      normalizeAssetResult JsValue.nonObject =
        { url := none, fallbackUsed := false, diagnostics := [] } ∧
      (∀ (url : Option String) (fallbackUsed : Bool)
          (diagnostics : Option (List RawDiagnostic)),
        normalizeAssetResult (JsValue.obj url fallbackUsed diagnostics) =
          { url := url, fallbackUsed := fallbackUsed,
            diagnostics := (diagnostics.getD []).map normalizeRawDiagnostic }) :=
  ⟨fun _ => rfl, rfl, fun _ _ _ => rfl⟩

/-- C8: the music fallback-track selection (`getFallbackMusic`) is
case-insensitive keyword substring matching with fixed priority: a mood
containing "happy" or "upbeat" yields the upbeat track; else one containing
"business" or "tech" yields the corporate track; else one containing "sad"
or "emotional" yields the emotional track; else one containing "jazz"
yields the jazz track; any other mood yields the cinematic default — the
first matching keyword group wins.  Stated as: the source function agrees
with `getFallbackMusicSpec`, the function written from the claim's words. -/
theorem C8_fallback_music_matching (mood : String) :
    getFallbackMusic mood = getFallbackMusicSpec mood := rfl

/-- C6 (amended): `generateVideoClip`'s fallback behaviour, given an API
key: (1) when no source image is supplied (absent or empty), the text-only
attempt runs as the primary path and the result has `fallbackUsed = false`;
(2) when a source image is supplied but unparseable, the text-only attempt
runs with `fallbackUsed = true`; (3) when the source image parses and the
image-conditioned attempt produces a usable url, that url is returned with
`fallbackUsed = false`; (4) when the source image parses and the
image-conditioned attempt fails, the text-only attempt (using the scene's
narrative summary prompt) runs with `fallbackUsed = true`.  So
`fallbackUsed = true` exactly when a source image was supplied and the
image-conditioned path did not succeed — not "whenever the text-only path
is reached". -/
theorem C6_generateVideoClip_fallback (env : VeoEnv) (scene : Scene)
    (aspect : AspectRatioKind) (src : Option String) (hkey : env.hasApiKey = true) :
    (truthyOptStr src = false →
      (generateVideoClip env scene aspect src).fallbackUsed = false ∧
        (generateVideoClip env scene aspect src).url =
          (env.textToVideo (textToVideoPromptOf scene)).url) ∧
      (truthyOptStr src = true → parseDataUrl (src.getD ("")) = none →
        (generateVideoClip env scene aspect src).fallbackUsed = true ∧
          (generateVideoClip env scene aspect src).url =
            (env.textToVideo (textToVideoPromptOf scene)).url) ∧
      (∀ parts, truthyOptStr src = true → parseDataUrl (src.getD ("")) = some parts →
        truthyOptStr (env.imageToVideo (veoPromptOf scene)).url = true →
        (generateVideoClip env scene aspect src).fallbackUsed = false ∧
          (generateVideoClip env scene aspect src).url =
            (env.imageToVideo (veoPromptOf scene)).url) ∧
      (∀ parts, truthyOptStr src = true → parseDataUrl (src.getD ("")) = some parts →
        truthyOptStr (env.imageToVideo (veoPromptOf scene)).url = false →
        (generateVideoClip env scene aspect src).fallbackUsed = true ∧
          (generateVideoClip env scene aspect src).url =
            (env.textToVideo (textToVideoPromptOf scene)).url) := by
  refine ⟨?_, ?_, ?_, ?_⟩
  · intro hsrc
    unfold generateVideoClip
    rw [hkey]
    simp only [Bool.true_eq_false, if_false, hsrc]
    exact ⟨rfl, rfl⟩
  · intro hsrc hparse
    unfold generateVideoClip
    rw [hkey]
    simp only [Bool.true_eq_false, if_false, hsrc, if_true, hparse]
    exact ⟨rfl, rfl⟩
  · intro parts hsrc hparse himg
    unfold generateVideoClip
    rw [hkey]
    simp only [Bool.true_eq_false, if_false, hsrc, if_true, hparse, himg]
    exact ⟨rfl, rfl⟩
  · intro parts hsrc hparse himg
    unfold generateVideoClip
    rw [hkey]
    simp only [Bool.true_eq_false, if_false, hsrc, if_true, hparse, himg,
      Bool.false_eq_true]
    exact ⟨rfl, rfl⟩

/-- C6 counterexample to the claim as stated: with an API key, no source
image at all, and a successful text-only attempt, the text-only (attempt 2)
path is reached — the returned url is exactly the text-attempt url — yet
`fallbackUsed` is `false`, refuting "fallbackUsed = true whenever the
text-only path is reached / whenever attempt 1 is not taken". -/
theorem C6_counterexample :
    (generateVideoClip sampleVeoEnv sampleScene AspectRatioKind.sixteenNine none).url =
        some ("blob:video-text") ∧
      (generateVideoClip sampleVeoEnv sampleScene AspectRatioKind.sixteenNine none).fallbackUsed =
        false :=
  ⟨rfl, rfl⟩

/-- C6 witness: a parseable source image whose image-conditioned attempt
fails — the text-only fallback runs and `fallbackUsed` is `true`. -/
theorem C6_generateVideoClip_fallback_witness :
    (generateVideoClip sampleVeoEnv sampleScene AspectRatioKind.sixteenNine
        (some sampleDataUrl)).fallbackUsed = true ∧
      (generateVideoClip sampleVeoEnv sampleScene AspectRatioKind.sixteenNine
        (some sampleDataUrl)).url =
        (sampleVeoEnv.textToVideo (textToVideoPromptOf sampleScene)).url :=
  (C6_generateVideoClip_fallback sampleVeoEnv sampleScene AspectRatioKind.sixteenNine
      (some sampleDataUrl) rfl).2.2.2
    { mimeType := "image/png", base64 := "AAAA" } (by decide) (by decide) rfl

/-- C1: for every combination of adapter behaviors in which each injected
adapter either returns a value or throws — excluding a plan-adapter failure
(the plan adapter returns a plan) and excluding cancellation (the predicate
never answers true) — `runGenerationPipeline` resolves, and the resulting
project satisfies `currentPhase = ready` and `isGenerating = false`. -/
theorem C1_terminates_ready (options : GenerationPipelineOptions)
    (deps : GenerationPipelineDependencies) (plan : AdPlan) (hnc : noCancel options)
    (hplan : deps.generateAdPlan = Except.ok plan) :
    runResolved (runGenerationPipeline options deps) = true ∧
      (runProject (runGenerationPipeline options deps)).map AdProject.currentPhase =
        some PipelinePhase.ready ∧
      (runProject (runGenerationPipeline options deps)).map AdProject.isGenerating =
        some false := by
  obtain ⟨r, hres⟩ := run_noCancel_ok hnc hplan
  obtain ⟨-, hphase, hgen, -, -, -, -, -, -⟩ := run_ok_spec hres
  unfold runResolved runProject
  rw [hres]
  exact ⟨rfl, by simp [hphase], by simp [hgen]⟩

/-- C1 witness: a concrete run with no cancellation and all-successful
adapters resolves at phase `ready` with `isGenerating = false`. -/
theorem C1_terminates_ready_witness :
    runResolved (runGenerationPipeline baseOptions okDeps) = true ∧
      (runProject (runGenerationPipeline baseOptions okDeps)).map AdProject.currentPhase =
        some PipelinePhase.ready ∧
      (runProject (runGenerationPipeline baseOptions okDeps)).map AdProject.isGenerating =
        some false :=
  C1_terminates_ready baseOptions okDeps samplePlan (fun _ hf => Option.noConfusion hf) rfl

/-- C2: for every run (resolved or rejected) and every adapter behavior,
the sequence of `currentPhase` values of the successive projects passed to
`onProjectUpdate` is non-decreasing under the total order `planning <
storyboarding < video_production < voiceover < scoring < (mixing <) ready`
encoded by `phaseNat`; the phase never regresses within one run. -/
theorem C2_phase_monotone (options : GenerationPipelineOptions)
    (deps : GenerationPipelineDependencies) :
    ((runGenerationPipeline options deps).trace.updates).Pairwise phasesLE := by
  unfold runGenerationPipeline
  dsimp only
  cases hcc0 : checkCancelled options
      { projectState := none, initCalls := [], updates := [], issues := [], cancelSamples := 0 } with
  | error stHalt =>
    obtain ⟨-, -, hupd, -⟩ := checkCancelled_err_fields hcc0
    show stHalt.updates.Pairwise phasesLE
    rw [hupd]
    exact List.Pairwise.nil
  | ok st1 =>
    dsimp only
    obtain ⟨-, -, hupd1, -⟩ := checkCancelled_ok_fields hcc0
    cases hplan : deps.generateAdPlan with
    | error e =>
      dsimp only
      show st1.updates.Pairwise phasesLE
      rw [hupd1]
      exact List.Pairwise.nil
    | ok plan =>
      dsimp only
      cases hcc1 : checkCancelled options st1 with
      | error stHalt =>
        dsimp only
        obtain ⟨-, -, hupd2, -⟩ := checkCancelled_err_fields hcc1
        show stHalt.updates.Pairwise phasesLE
        rw [hupd2, hupd1]
        exact List.Pairwise.nil
      | ok st2 =>
        dsimp only
        obtain ⟨-, -, hupd2, -⟩ := checkCancelled_ok_fields hcc1
        exact pipelineStoryboard_updates (by rw [hupd2, hupd1])

/-- C3: for every run that resolves, every scene in the returned project's
scene list has status exactly `complete` or `failed` — no scene is left
`pending` or `generating`. -/
theorem C3_scene_status_partition (options : GenerationPipelineOptions)
    (deps : GenerationPipelineDependencies)
    (h : runResolved (runGenerationPipeline options deps) = true) :
    ((runScenes (runGenerationPipeline options deps)).all fun s =>
      decide (s.status = SceneStatus.complete ∨ s.status = SceneStatus.failed)) = true := by
  cases hres : (runGenerationPipeline options deps).result with
  | error e =>
    unfold runResolved at h
    rw [hres] at h
    cases h
  | ok r =>
    unfold runScenes
    rw [hres]
    obtain ⟨-, -, -, hscenes, -, -, -, -, -⟩ := run_ok_spec hres
    dsimp only
    rw [hscenes]
    unfold pipelineFinalScenes
    rw [List.all_eq_true]
    intro s hs
    obtain ⟨j, a, hj, hsa⟩ := mapIdxFrom_mem hs
    rw [Nat.zero_add] at hsa
    subst hsa
    rcases videoSceneResult_status deps j a with h1 | h1 <;> simp [h1]

/-- C3 witness: the all-successful concrete run's scenes are all
`complete`/`failed`. -/
theorem C3_scene_status_partition_witness :
    ((runScenes (runGenerationPipeline baseOptions okDeps)).all fun s =>
      decide (s.status = SceneStatus.complete ∨ s.status = SceneStatus.failed)) = true :=
  C3_scene_status_partition baseOptions okDeps rfl

/-- C4: for every run that resolves, whenever an adapter call (storyboard,
video, voiceover or music) yields a normalized result with `url = null`,
the returned issues list contains at least one `PipelineIssue` whose stage
matches that adapter's pipeline stage (`storyboarding`, `video_production`,
`voiceover`, `scoring` respectively), and, for the per-scene stages, whose
`sceneId` matches the scene in question. -/
theorem C4_issue_on_null_url (options : GenerationPipelineOptions)
    (deps : GenerationPipelineDependencies) (plan : AdPlan)
    (h : runResolved (runGenerationPipeline options deps) = true)
    (hplan : runPlan (runGenerationPipeline options deps) = some plan) :
    (∀ (j : Nat) (scene : PlanScene) (v : JsValue),
      (plan.scenes.getD [])[j]? = some scene →
      deps.generateStoryboardImage j = Except.ok v →
      (normalizeAssetResult v).url = none →
      ((runIssues (runGenerationPipeline options deps)).any fun issue =>
        decide (issue.stage = PipelinePhase.storyboarding ∧
          issue.sceneId = some scene.id)) = true) ∧
    (∀ (j : Nat) (scene : PlanScene) (v : JsValue),
      (plan.scenes.getD [])[j]? = some scene →
      deps.generateVideoClip j = Except.ok v →
      (normalizeAssetResult v).url = none →
      ((runIssues (runGenerationPipeline options deps)).any fun issue =>
        decide (issue.stage = PipelinePhase.video_production ∧
          issue.sceneId = some scene.id)) = true) ∧
    (∀ v, deps.generateVoiceover = Except.ok v →
      (normalizeAssetResult v).url = none →
      ((runIssues (runGenerationPipeline options deps)).any fun issue =>
        decide (issue.stage = PipelinePhase.voiceover)) = true) ∧
    (∀ v, deps.generateMusic = Except.ok v →
      (normalizeAssetResult v).url = none →
      ((runIssues (runGenerationPipeline options deps)).any fun issue =>
        decide (issue.stage = PipelinePhase.scoring)) = true) := by
  cases hres : (runGenerationPipeline options deps).result with
  | error e =>
    unfold runResolved at h
    rw [hres] at h
    cases h
  | ok r =>
    unfold runPlan at hplan
    rw [hres] at hplan
    dsimp only at hplan
    cases hplan
    obtain ⟨-, -, -, -, -, hmusic, hvoice, hvideo, hsb⟩ := run_ok_spec hres
    have hiss : runIssues (runGenerationPipeline options deps) = r.issues := by
      unfold runIssues
      rw [hres]
    refine ⟨?_, ?_, ?_, ?_⟩
    · intro j scene v hj horacle hurl
      have hj' : ((r.plan.scenes.getD []).map initScene)[j]? = some (initScene scene) := by
        rw [List.getElem?_map, hj]
        rfl
      obtain ⟨issue, hmem, hstage, hsid, -⟩ :=
        hsb j (initScene scene) v hj' horacle (by rw [hurl]; rfl)
      rw [hiss, List.any_eq_true]
      exact ⟨issue, hmem, by simp [hstage, hsid, initScene]⟩
    · intro j scene v hj horacle hurl
      have hj' : ((r.plan.scenes.getD []).map initScene)[j]? = some (initScene scene) := by
        rw [List.getElem?_map, hj]
        rfl
      obtain ⟨issue, hmem, hstage, hsid, -⟩ :=
        hvideo j (initScene scene) v hj' horacle (by rw [hurl]; rfl)
      rw [hiss, List.any_eq_true]
      exact ⟨issue, hmem, by simp [hstage, hsid, initScene]⟩
    · intro v horacle hurl
      obtain ⟨issue, hmem, hstage, -, -⟩ :=
        hvoice v horacle (by rw [hurl]; rfl)
      rw [hiss, List.any_eq_true]
      exact ⟨issue, hmem, by simp [hstage]⟩
    · intro v horacle hurl
      obtain ⟨issue, hmem, hstage, -, -⟩ :=
        hmusic v horacle (by rw [hurl]; rfl)
      rw [hiss, List.any_eq_true]
      exact ⟨issue, hmem, by simp [hstage]⟩

/-- C4 witness: a concrete run whose storyboard adapter returns a
non-object value (normalized url `null`) carries a `storyboarding` issue
for the affected scene. -/
theorem C4_issue_on_null_url_witness :
    ((runIssues (runGenerationPipeline baseOptions nullStoryboardDeps)).any fun issue =>
      decide (issue.stage = PipelinePhase.storyboarding ∧
        issue.sceneId = some sampleScenePlan.id)) = true :=
  (C4_issue_on_null_url baseOptions nullStoryboardDeps samplePlan rfl rfl).1
    0 sampleScenePlan JsValue.nonObject rfl rfl rfl

/-- C10: for every run that resolves, the returned project's scene list has
exactly the same length and order as the plan's scene list, and each scene
keeps its plan-provided fields (`id`, `order`, `duration`, the creative
breakdown `character`/`environment`/`camera`/`action_blocking`/
`visual_summary_prompt`, and the overlay fields) unchanged — the
orchestrator modifies only `storyboardUrl`, `videoUrl` and `status`. -/
theorem C10_plan_fields_preserved (options : GenerationPipelineOptions)
    (deps : GenerationPipelineDependencies) (plan : AdPlan)
    (h : runResolved (runGenerationPipeline options deps) = true)
    (hplan : runPlan (runGenerationPipeline options deps) = some plan) :
    (runScenes (runGenerationPipeline options deps)).length =
        (plan.scenes.getD []).length ∧
      ∀ i : Nat, ((runScenes (runGenerationPipeline options deps))[i]?).map scenePlanFields =
        ((plan.scenes.getD [])[i]?).map planSceneFields := by
  cases hres : (runGenerationPipeline options deps).result with
  | error e =>
    unfold runResolved at h
    rw [hres] at h
    cases h
  | ok r =>
    unfold runPlan at hplan
    rw [hres] at hplan
    dsimp only at hplan
    cases hplan
    obtain ⟨-, -, -, hscenes, -, -, -, -, -⟩ := run_ok_spec hres
    have hrs : runScenes (runGenerationPipeline options deps) =
        pipelineFinalScenes deps r.plan := by
      unfold runScenes
      rw [hres]
      exact hscenes
    constructor
    · rw [hrs]
      unfold pipelineFinalScenes
      rw [mapIdxFrom_length, mapIdxFrom_length, List.length_map]
    · intro i
      rw [hrs]
      unfold pipelineFinalScenes
      rw [mapIdxFrom_getElem?, mapIdxFrom_getElem?, List.getElem?_map, Nat.zero_add]
      cases hp : (r.plan.scenes.getD [])[i]? with
      | none => rfl
      | some p =>
        show some (scenePlanFields
          (videoSceneResult deps i (storyboardSceneResult deps i (initScene p)))) =
            some (planSceneFields p)
        rw [videoSceneResult_planFields, storyboardSceneResult_planFields,
          initScene_planFields]

/-- C10 witness: the concrete all-successful run preserves the plan scene's
fields at position 0 and the list length. -/
theorem C10_plan_fields_preserved_witness :
    (runScenes (runGenerationPipeline baseOptions okDeps)).length =
        (samplePlan.scenes.getD []).length ∧
      ((runScenes (runGenerationPipeline baseOptions okDeps))[0]?).map scenePlanFields =
        ((samplePlan.scenes.getD [])[0]?).map planSceneFields :=
  ⟨(C10_plan_fields_preserved baseOptions okDeps samplePlan rfl rfl).1,
    (C10_plan_fields_preserved baseOptions okDeps samplePlan rfl rfl).2 0⟩

/-- C9: an adapter result whose normalized url is the empty string is
treated identically to a null url at the orchestrator's public interface,
because the orchestrator branches on JS truthiness of the url rather than
`url !== null`: for any resolved run, a storyboard result with `url = ""`
leaves the scene's `storyboardUrl` undefined and records a recoverable
`storyboarding` issue for the scene, and a video result with `url = ""`
leaves `videoUrl` undefined, marks the scene `failed`, and records a
recoverable `video_production` issue for the scene. -/
theorem C9_empty_url_is_falsy (options : GenerationPipelineOptions)
    (deps : GenerationPipelineDependencies) (i : Nat) (sid : String)
    (h : runResolved (runGenerationPipeline options deps) = true)
    (hid : ((runScenes (runGenerationPipeline options deps))[i]?).map Scene.id = some sid) :
    (∀ v, deps.generateStoryboardImage i = Except.ok v →
      (normalizeAssetResult v).url = some ("") →
      ((runScenes (runGenerationPipeline options deps))[i]?).map Scene.storyboardUrl =
          some none ∧
        ((runIssues (runGenerationPipeline options deps)).any fun issue =>
          decide (issue.stage = PipelinePhase.storyboarding ∧ issue.sceneId = some sid ∧
            issue.recoverable = true)) = true) ∧
    (∀ v, deps.generateVideoClip i = Except.ok v →
      (normalizeAssetResult v).url = some ("") →
      ((runScenes (runGenerationPipeline options deps))[i]?).map Scene.status =
          some SceneStatus.failed ∧
        ((runScenes (runGenerationPipeline options deps))[i]?).map Scene.videoUrl =
          some none ∧
        ((runIssues (runGenerationPipeline options deps)).any fun issue =>
          decide (issue.stage = PipelinePhase.video_production ∧ issue.sceneId = some sid ∧
            issue.recoverable = true)) = true) := by
  cases hres : (runGenerationPipeline options deps).result with
  | error e =>
    unfold runResolved at h
    rw [hres] at h
    cases h
  | ok r =>
    obtain ⟨-, -, -, hscenes, -, -, -, hvideo, hsb⟩ := run_ok_spec hres
    have hrs : runScenes (runGenerationPipeline options deps) =
        pipelineFinalScenes deps r.plan := by
      unfold runScenes
      rw [hres]
      exact hscenes
    have hiss : runIssues (runGenerationPipeline options deps) = r.issues := by
      unfold runIssues
      rw [hres]
    have hget : (pipelineFinalScenes deps r.plan)[i]? =
        (((r.plan.scenes.getD []).map initScene)[i]?).map
          (fun a => videoSceneResult deps i (storyboardSceneResult deps i a)) := by
      unfold pipelineFinalScenes
      rw [mapIdxFrom_getElem?, mapIdxFrom_getElem?, Nat.zero_add]
      cases ((r.plan.scenes.getD []).map initScene)[i]? <;> rfl
    cases hbase : ((r.plan.scenes.getD []).map initScene)[i]? with
    | none =>
      rw [hrs, hget, hbase] at hid
      cases hid
    | some base =>
      have hsOut : (runScenes (runGenerationPipeline options deps))[i]? =
          some (videoSceneResult deps i (storyboardSceneResult deps i base)) := by
        rw [hrs, hget, hbase]
        rfl
      rw [hsOut] at hid
      have hbid : base.id = sid := by
        have : (videoSceneResult deps i (storyboardSceneResult deps i base)).id = sid := by
          simpa using hid
        rw [videoSceneResult_id, storyboardSceneResult_id] at this
        exact this
      constructor
      · intro v hsbv hurl
        constructor
        · rw [hsOut]
          show some ((videoSceneResult deps i (storyboardSceneResult deps i base)).storyboardUrl) =
            some none
          rw [videoSceneResult_storyboardUrl, storyboardSceneResult_emptyUrl deps i base hsbv hurl]
        · obtain ⟨issue, hmem, h1, h2, h3⟩ :=
            hsb i base v hbase hsbv (by rw [hurl]; exact truthyOptStr_empty)
          rw [hiss, List.any_eq_true]
          exact ⟨issue, hmem, by simp [h1, h2, h3, hbid]⟩
      · intro v hvv hurl
        obtain ⟨hvurl, hvstatus⟩ := videoSceneResult_emptyUrl deps i
          (storyboardSceneResult deps i base) hvv hurl
        refine ⟨?_, ?_, ?_⟩
        · rw [hsOut]
          show some ((videoSceneResult deps i (storyboardSceneResult deps i base)).status) =
            some SceneStatus.failed
          rw [hvstatus]
        · rw [hsOut]
          show some ((videoSceneResult deps i (storyboardSceneResult deps i base)).videoUrl) =
            some none
          rw [hvurl]
        · obtain ⟨issue, hmem, h1, h2, h3⟩ :=
            hvideo i base v hbase hvv (by rw [hurl]; exact truthyOptStr_empty)
          rw [hiss, List.any_eq_true]
          exact ⟨issue, hmem, by simp [h1, h2, h3, hbid]⟩

/-- C9 witness: a concrete run whose storyboard adapter returns a
structured result with `url: ""` and whose video adapter returns the bare
string `""` — scene 0 ends with no `storyboardUrl`, no `videoUrl`, status
`failed`, and both recoverable issues are present. -/
theorem C9_empty_url_is_falsy_witness :
    (((runScenes (runGenerationPipeline baseOptions emptyUrlDeps))[0]?).map Scene.storyboardUrl =
        some none ∧
      ((runIssues (runGenerationPipeline baseOptions emptyUrlDeps)).any fun issue =>
        decide (issue.stage = PipelinePhase.storyboarding ∧ issue.sceneId = some ("scene-1") ∧
          issue.recoverable = true)) = true) ∧
    (((runScenes (runGenerationPipeline baseOptions emptyUrlDeps))[0]?).map Scene.status =
        some SceneStatus.failed ∧
      ((runScenes (runGenerationPipeline baseOptions emptyUrlDeps))[0]?).map Scene.videoUrl =
        some none ∧
      ((runIssues (runGenerationPipeline baseOptions emptyUrlDeps)).any fun issue =>
        decide (issue.stage = PipelinePhase.video_production ∧ issue.sceneId = some ("scene-1") ∧
          issue.recoverable = true)) = true) :=
  ⟨(C9_empty_url_is_falsy baseOptions emptyUrlDeps 0 ("scene-1") rfl rfl).1
      (JsValue.obj (some ("")) false none) rfl rfl,
    (C9_empty_url_is_falsy baseOptions emptyUrlDeps 0 ("scene-1") rfl rfl).2
      (JsValue.str ("")) rfl rfl⟩

/-- C5 counterexample: the claim as stated is false.  With a cancellation
predicate that is false at the pre-plan check (sample 0) and first true at
the post-plan `checkCancelled('planning')` call (sample 1) — i.e. the
predicate became true after the plan adapter completed successfully and
before any scene's storyboard call — the run does reject with
`PipelineCancelledError`, but `onProjectInitialized` is never called (zero
times, not "exactly once"): the line-250 check fires before the project is
initialized at line 263. -/
theorem C5_counterexample :
    (runGenerationPipeline cancelAfterPlanOptions okDeps).result =
        Except.error PipelineErrorKind.cancelled ∧
      (runGenerationPipeline cancelAfterPlanOptions okDeps).trace.initCalls.length = 0 :=
  ⟨rfl, rfl⟩

/-- C5 (amended): if the cancellation predicate is false at the pre-plan
and post-plan planning checks (samples 0 and 1) and becomes true at the
next check — the first check before any scene's storyboard call — and the
plan adapter succeeds, then the run rejects with `PipelineCancelledError`
(distinguishable from ordinary errors), `onProjectInitialized` was called
exactly once, and no project with `currentPhase = ready` is ever passed to
`onProjectUpdate`.  (If instead the predicate is already true at the
post-plan check, the run still rejects with `PipelineCancelledError` but
`onProjectInitialized` is never called — see the counterexample.) -/
theorem C5_cancel_before_storyboard (options : GenerationPipelineOptions)
    (deps : GenerationPipelineDependencies) (f : Nat → Bool) (plan : AdPlan)
    (hsc : options.shouldCancel = some f) (h0 : f 0 = false) (h1 : f 1 = false)
    (h2 : f 2 = true) (hplan : deps.generateAdPlan = Except.ok plan) :
    (runGenerationPipeline options deps).result = Except.error PipelineErrorKind.cancelled ∧
      (runGenerationPipeline options deps).trace.initCalls.length = 1 ∧
      ((runGenerationPipeline options deps).trace.updates.all fun p =>
        decide (p.currentPhase ≠ PipelinePhase.ready)) = true := by
  unfold runGenerationPipeline
  dsimp only
  rw [checkCancelled_false hsc
    { projectState := none, initCalls := [], updates := [], issues := [], cancelSamples := 0 } h0]
  dsimp only
  rw [hplan]
  dsimp only
  rw [checkCancelled_false hsc
    { projectState := none, initCalls := [], updates := [], issues := [], cancelSamples := 0 + 1 } h1]
  dsimp only
  unfold pipelineStoryboard
  dsimp only
  cases hlist : (initialProjectOf options plan).scenes with
  | nil =>
    simp only [storyboardLoop]
    unfold pipelineVideo
    dsimp only
    rw [checkCancelled_true hsc
      { projectState := some (initialProjectOf options plan)
        initCalls := [] ++ [initialProjectOf options plan]
        updates := []
        issues := []
        cancelSamples := 0 + 1 + 1 } h2]
    exact ⟨rfl, rfl, rfl⟩
  | cons s rest =>
    simp only [storyboardLoop]
    rw [checkCancelled_true hsc
      { projectState := some (initialProjectOf options plan)
        initCalls := [] ++ [initialProjectOf options plan]
        updates := []
        issues := []
        cancelSamples := 0 + 1 + 1 } h2]
    exact ⟨rfl, rfl, rfl⟩

/-- C5 witness: a concrete run whose predicate first answers true at the
third sample — cancelled, initialized exactly once, no `ready` broadcast. -/
theorem C5_cancel_before_storyboard_witness :
    (runGenerationPipeline cancelBeforeStoryboardOptions okDeps).result =
        Except.error PipelineErrorKind.cancelled ∧
      (runGenerationPipeline cancelBeforeStoryboardOptions okDeps).trace.initCalls.length = 1 ∧
      ((runGenerationPipeline cancelBeforeStoryboardOptions okDeps).trace.updates.all fun p =>
        decide (p.currentPhase ≠ PipelinePhase.ready)) = true :=
  C5_cancel_before_storyboard cancelBeforeStoryboardOptions okDeps
    (fun n => decide (2 ≤ n)) samplePlan rfl rfl rfl rfl rfl
